import Mathlib

/-!
Shallow embedding of the WASAPI capture engine
(src/native/windows/wasapi_capture.cpp) of the coreaudio-node repository.

Modelling conventions:
* C++ `float`/`double` sample and rate arithmetic is embedded as exact
  rational arithmetic (`ℚ`); `static_cast<size_t>` of a non-negative
  real value is `Int.toNat ∘ Int.floor` (truncation toward zero).
* `HRESULT` values are integers; `FAILED(hr)` is `hr < 0`, matching the
  sign-bit convention of COM error codes.
* The native COM calls performed during initialization are modelled by
  environment records carrying the `HRESULT` each call returns and the
  mix format the device reports; the session object `WasapiCapture` is
  the record `CaptureState`, with the three COM resource pointers
  (`audioClient_`, `captureClient_`, `mixFormat_`) modelled by whether
  they are currently held.
* Callback invocations are returned as explicit lists: `Output` events
  and metadata for the lifecycle functions, and lists of emitted sample
  chunks for the audio-processing functions.
-/

namespace Wasapi

/-- A COM `WAVEFORMATEX` restricted to the fields the engine reads. -/
structure MixFormat where
  nSamplesPerSec : ℕ
  nChannels : ℕ
deriving DecidableEq

/-- The `FAILED` macro: an `HRESULT` denotes failure iff it is negative. -/
def FAILED (hr : Int) : Bool := hr < 0

/-- The `E_FAIL` HRESULT constant. -/
def eFailHr : Int := -2147467259

/-- Outputs delivered through the event and metadata callbacks.
`event ty msg` is `eventCallback_(ty, msg)`; `metadata` carries the
arguments of `metadataCallback_`. -/
inductive Output where
  | event (ty : ℕ) (msg : Option String)
  | metadata (sampleRate : ℚ) (channels : ℕ) (bits : ℕ) (isFloat : Bool) (encoding : String)
deriving DecidableEq

/-- The mutable state of a `WasapiCapture` object.  The three resource
fields record whether the corresponding COM pointer is currently held
(`mixFormat = none` models a null `mixFormat_`). -/
structure CaptureState where
  hasDataCallback : Bool
  hasEventCallback : Bool
  hasMetadataCallback : Bool
  audioClient : Bool
  captureClient : Bool
  mixFormat : Option MixFormat
  running : Bool
  targetSampleRate : ℚ
  chunkDurationMs : ℚ
  isMono : Bool
  gain : ℚ
  emitSilence : Bool
  lastDataTime : ℚ
  chunkBuffer : List ℚ
  samplesPerChunk : ℕ
  resampleRatio : ℚ
deriving DecidableEq

/-- The `WasapiCapture` constructor: field values of a freshly created
session object (wasapi_capture.cpp, constructor initializer list). -/
def newCapture (hd he hm : Bool) : CaptureState :=
  { hasDataCallback := hd
    hasEventCallback := he
    hasMetadataCallback := hm
    audioClient := false
    captureClient := false
    mixFormat := none
    running := false
    targetSampleRate := 0
    chunkDurationMs := 200
    isMono := true
    gain := 1
    emitSilence := true
    lastDataTime := 0
    chunkBuffer := []
    samplesPerChunk := 0
    resampleRatio := 1 }

/-- Number of output channels: 1 when mono is requested, otherwise the
native channel count (2 when no mix format is held, as in the silence
path of `CaptureThread`). -/
def outputChannels (s : CaptureState) : ℕ :=
  if s.isMono then 1 else
    match s.mixFormat with
    | some f => f.nChannels
    | none => 2

/-- The emission threshold `samplesNeeded = samplesPerChunk_ * channels`. -/
def samplesNeeded (s : CaptureState) : ℕ :=
  s.samplesPerChunk * outputChannels s

/-! ### Source negotiation (`InitializeSystemLoopback`, `InitializeProcessLoopback`,
`InitializeMicrophone`)

Each environment record lists the `HRESULT` returned by each native COM
call made by the corresponding function, in program order, together with
the mix format delivered by `GetMixFormat` when it succeeds. -/

/-- Native-call outcomes for `InitializeSystemLoopback`. -/
structure SysEnv where
  coCreateHr : Int
  getEndpointHr : Int
  activateHr : Int
  getMixFormatHr : Int
  deviceFormat : MixFormat
  initHr : Int
  getServiceHr : Int
deriving DecidableEq

/-- Model of `WasapiCapture::InitializeSystemLoopback` (wasapi_capture.cpp:130-168):
returns the first failing `HRESULT`, acquiring `audioClient_` once
`Activate` succeeds, `mixFormat_` once `GetMixFormat` succeeds and
`captureClient_` once `GetService` succeeds. -/
def initSystemLoopback (env : SysEnv) (s : CaptureState) : Int × CaptureState :=
  if FAILED env.coCreateHr then (env.coCreateHr, s)
  else if FAILED env.getEndpointHr then (env.getEndpointHr, s)
  else if FAILED env.activateHr then (env.activateHr, s)
  else
    let s1 := { s with audioClient := true }
    if FAILED env.getMixFormatHr then (env.getMixFormatHr, s1)
    else
      let s2 := { s1 with mixFormat := some env.deviceFormat }
      if FAILED env.initHr then (env.initHr, s2)
      else if FAILED env.getServiceHr then (env.getServiceHr, s2)
      else (env.getServiceHr, { s2 with captureClient := true })

/-- Native-call outcomes for `InitializeProcessLoopback`. -/
structure ProcEnv where
  activateAsyncHr : Int
  hasOperation : Bool
  getActivateResultHr : Int
  activateResultHr : Int
  queryInterfaceHr : Int
  getMixFormatHr : Int
  deviceFormat : MixFormat
  initHr : Int
  getServiceHr : Int
deriving DecidableEq

/-- Model of `WasapiCapture::InitializeProcessLoopback` (wasapi_capture.cpp:170-249).
The target pid and loopback mode do not influence the modelled state. -/
def initProcessLoopback (env : ProcEnv) (_pid : Int) (_includeMode : Bool)
    (s : CaptureState) : Int × CaptureState :=
  if FAILED env.activateAsyncHr then (env.activateAsyncHr, s)
  else if !env.hasOperation then (eFailHr, s)
  else if FAILED env.getActivateResultHr then (env.getActivateResultHr, s)
  else if FAILED env.activateResultHr then (env.activateResultHr, s)
  else if FAILED env.queryInterfaceHr then (env.queryInterfaceHr, s)
  else
    let s1 := { s with audioClient := true }
    if FAILED env.getMixFormatHr then (env.getMixFormatHr, s1)
    else
      let s2 := { s1 with mixFormat := some env.deviceFormat }
      if FAILED env.initHr then (env.initHr, s2)
      else if FAILED env.getServiceHr then (env.getServiceHr, s2)
      else (env.getServiceHr, { s2 with captureClient := true })

/-- Native-call outcomes for `InitializeMicrophone` (`getDeviceHr` covers
both the named-device and the default-endpoint branch). -/
structure MicEnv where
  coCreateHr : Int
  getDeviceHr : Int
  activateHr : Int
  getMixFormatHr : Int
  deviceFormat : MixFormat
  initHr : Int
  getServiceHr : Int
deriving DecidableEq

/-- Model of `WasapiCapture::InitializeMicrophone` (wasapi_capture.cpp:251-294). -/
def initMicrophone (env : MicEnv) (_deviceId : Option String)
    (s : CaptureState) : Int × CaptureState :=
  if FAILED env.coCreateHr then (env.coCreateHr, s)
  else if FAILED env.getDeviceHr then (env.getDeviceHr, s)
  else if FAILED env.activateHr then (env.activateHr, s)
  else
    let s1 := { s with audioClient := true }
    if FAILED env.getMixFormatHr then (env.getMixFormatHr, s1)
    else
      let s2 := { s1 with mixFormat := some env.deviceFormat }
      if FAILED env.initHr then (env.initHr, s2)
      else if FAILED env.getServiceHr then (env.getServiceHr, s2)
      else (env.getServiceHr, { s2 with captureClient := true })

/-- Model of `WasapiCapture::FinalizeInitialization` (wasapi_capture.cpp:296-319):
computes the output sample rate, the resample ratio and
`samplesPerChunk_ = static_cast<size_t>((chunkDurationMs_ / 1000.0) * outputSampleRate)`
(truncation of a non-negative value, i.e. the floor), and reports the
output format through the metadata callback. -/
def finalizeInit (s : CaptureState) : Int × CaptureState × List Output :=
  match s.mixFormat with
  | none => (eFailHr, s, [])
  | some fmt =>
    let outputSampleRate : ℚ :=
      if s.targetSampleRate > 0 then s.targetSampleRate else (fmt.nSamplesPerSec : ℚ)
    let ratio : ℚ := outputSampleRate / (fmt.nSamplesPerSec : ℚ)
    let spc : ℕ := (⌊(s.chunkDurationMs / 1000) * outputSampleRate⌋).toNat
    let s1 := { s with resampleRatio := ratio, samplesPerChunk := spc }
    let outs :=
      if s.hasMetadataCallback then
        [Output.metadata outputSampleRate (if s.isMono then 1 else fmt.nChannels)
          32 true "pcm_f32le"]
      else []
    (0, s1, outs)

/-- Parameters of `StartSystemAudio`. -/
structure SystemParams where
  sampleRate : ℚ
  chunkDurationMs : ℚ
  mute : Bool
  isMono : Bool
  emitSilence : Bool
  includeProcesses : List Int
  includeCount : Int
  excludeProcesses : List Int
  excludeCount : Int
deriving DecidableEq

/-- Native-call outcomes for a `StartSystemAudio` call: the chosen
negotiation path environment plus the `HRESULT` of `audioClient_->Start()`. -/
structure SystemStartEnv where
  procEnv : ProcEnv
  sysEnv : SysEnv
  startHr : Int
deriving DecidableEq

/-- The parameter fields assigned at the top of `StartSystemAudio`
(wasapi_capture.cpp:334-337). -/
def setSysParams (p : SystemParams) (s : CaptureState) : CaptureState :=
  { s with
    targetSampleRate := p.sampleRate
    chunkDurationMs := if p.chunkDurationMs > 0 then p.chunkDurationMs else 200
    isMono := p.isMono
    emitSilence := p.emitSilence }

/-- The start sequence both `StartSystemAudio` (wasapi_capture.cpp:360-395)
and `StartMicrophone` (wasapi_capture.cpp:418-453) run after source
negotiation — the C++ duplicates this block verbatim in the two
functions, differing only in the negotiation-failure message: check the
negotiation result, finalize, start the audio client, set the running
flag, and emit the corresponding events. -/
def startTail (startHr : Int) (res : Int × CaptureState) (initFailMsg : String) :
    Int × CaptureState × List Output :=
  let s1 := res.2
  if FAILED res.1 then
    (-3, s1, if s1.hasEventCallback then [Output.event 2 (some initFailMsg)] else [])
  else
    let fin := finalizeInit s1
    let s2 := fin.2.1
    if FAILED fin.1 then
      (-4, s2, fin.2.2 ++
        if s2.hasEventCallback then
          [Output.event 2 (some "Failed to finalize audio initialization")] else [])
    else if FAILED startHr then
      (-5, s2, fin.2.2 ++
        if s2.hasEventCallback then
          [Output.event 2 (some "Failed to start audio client")] else [])
    else
      (0, { s2 with running := true }, fin.2.2 ++
        if s2.hasEventCallback then [Output.event 0 none] else [])

/-- Model of `WasapiCapture::StartSystemAudio` (wasapi_capture.cpp:321-396).
Returns the status code, the resulting object state, and the outputs
delivered through the event and metadata callbacks, in order. -/
def startSystemAudio (env : SystemStartEnv) (p : SystemParams) (s : CaptureState) :
    Int × CaptureState × List Output :=
  if s.running then (-2, s, [])
  else
    let s0 := setSysParams p s
    startTail env.startHr
      (if p.includeCount > 0 ∧ p.includeProcesses ≠ [] then
        initProcessLoopback env.procEnv (p.includeProcesses.headD 0) true s0
      else if p.excludeCount > 0 ∧ p.excludeProcesses ≠ [] then
        initProcessLoopback env.procEnv (p.excludeProcesses.headD 0) false s0
      else
        initSystemLoopback env.sysEnv s0)
      "Failed to initialize audio capture"

/-- Parameters of `StartMicrophone`. -/
structure MicParams where
  sampleRate : ℚ
  chunkDurationMs : ℚ
  isMono : Bool
  emitSilence : Bool
  deviceId : Option String
  gain : ℚ
deriving DecidableEq

/-- Native-call outcomes for a `StartMicrophone` call. -/
structure MicStartEnv where
  micEnv : MicEnv
  startHr : Int
deriving DecidableEq

/-- The parameter fields assigned at the top of `StartMicrophone`
(wasapi_capture.cpp:408-412). -/
def setMicParams (p : MicParams) (s : CaptureState) : CaptureState :=
  { s with
    targetSampleRate := p.sampleRate
    chunkDurationMs := if p.chunkDurationMs > 0 then p.chunkDurationMs else 200
    isMono := p.isMono
    emitSilence := p.emitSilence
    gain := p.gain }

/-- Model of `WasapiCapture::StartMicrophone` (wasapi_capture.cpp:398-454). -/
def startMicrophone (env : MicStartEnv) (p : MicParams) (s : CaptureState) :
    Int × CaptureState × List Output :=
  if s.running then (-2, s, [])
  else
    startTail env.startHr (initMicrophone env.micEnv p.deviceId (setMicParams p s))
      "Failed to initialize microphone capture"

/-- Model of `WasapiCapture::Stop` (wasapi_capture.cpp:456-476): returns 0
immediately when not running; otherwise clears the running flag, joins
the worker, and emits a `Stopped` (type 1) event. -/
def stop (s : CaptureState) : Int × CaptureState × List Output :=
  if !s.running then (0, s, [])
  else
    let s1 := { s with running := false }
    (0, s1, if s1.hasEventCallback then [Output.event 1 none] else [])

/-! ### The streaming-transform pipeline (`ProcessAudioData` and helpers) -/

/-- The gain stage (wasapi_capture.cpp:582-589): multiply every sample
by the stored gain; no clipping. -/
def applyGain (g : ℚ) (d : List ℚ) : List ℚ :=
  d.map (fun x => x * g)

/-- Model of `WasapiCapture::ConvertToMono` (wasapi_capture.cpp:631-642): each
output frame is the sum of the channels of that frame divided by the channel
count. -/
def convertToMono (channels frames : ℕ) (input : List ℚ) : List ℚ :=
  (List.range frames).map (fun i =>
    (((List.range channels).map (fun c => input.getD (i * channels + c) 0)).sum)
      / (channels : ℚ))

/-- Model of `WasapiCapture::ResampleAudio` (wasapi_capture.cpp:644-664): linear
interpolation; the input length plays the role of `inputSamples`, and
`static_cast<size_t>` of the non-negative positions is the floor. -/
def resampleAudio (ratio : ℚ) (input : List ℚ) : List ℚ :=
  let inputSamples := input.length
  let outputSamples := (⌊(inputSamples : ℚ) * ratio⌋).toNat
  (List.range outputSamples).map (fun (i : ℕ) =>
    let srcIndex : ℚ := (i : ℚ) / ratio
    let srcIndexInt : ℕ := (⌊srcIndex⌋).toNat
    let frac : ℚ := srcIndex - (srcIndexInt : ℚ)
    if srcIndexInt + 1 < inputSamples then
      input.getD srcIndexInt 0 * (1 - frac) + input.getD (srcIndexInt + 1) 0 * frac
    else if srcIndexInt < inputSamples then
      input.getD srcIndexInt 0
    else 0)

/-- One round of the chunk-emission `while` loop of `ProcessAudioData`
(wasapi_capture.cpp:618-628), with fuel bounding the number of rounds.
When `0 < needed` a fuel of `buf.length` is enough to drain the buffer
completely, so the fuelled function coincides with the C++ loop (which
does not terminate when `needed = 0`; the model then emits nothing). -/
def emitChunksGo (needed : ℕ) : ℕ → List ℚ → List ℚ × List (List ℚ)
  | 0, buf => (buf, [])
  | fuel + 1, buf =>
    if 0 < needed ∧ needed ≤ buf.length then
      let rec1 := emitChunksGo needed fuel (buf.drop needed)
      (rec1.1, buf.take needed :: rec1.2)
    else (buf, [])

/-- The chunk-emission loop: repeatedly emit the oldest `needed` samples
while at least `needed` are buffered.  Returns the remaining buffer and
the emitted chunks, oldest first. -/
def emitChunks (needed : ℕ) (buf : List ℚ) : List ℚ × List (List ℚ) :=
  emitChunksGo needed buf.length buf

/-- Model of `WasapiCapture::ProcessAudioData` (wasapi_capture.cpp:572-629).
`data` holds the `numFrames * nChannels` floats read from the native
buffer (the function never reads beyond that count, hence the `take`).
Returns the updated state and the chunks handed to the data callback,
in emission order. -/
def processAudioData (s : CaptureState) (data : List ℚ) (numFrames : ℕ) :
    CaptureState × List (List ℚ) :=
  match s.mixFormat with
  | none => (s, [])
  | some fmt =>
    if numFrames = 0 then (s, [])
    else
      let numChannels := fmt.nChannels
      let d0 := data.take (numFrames * numChannels)
      let d1 := if s.gain ≠ 1 then applyGain s.gain d0 else d0
      let step2 :=
        if s.isMono ∧ 1 < numChannels then (convertToMono numChannels numFrames d1, 1)
        else (d1, numChannels)
      let d2 := step2.1
      let ch2 := step2.2
      let step3 :=
        if s.resampleRatio ≠ 1 then
          let r := resampleAudio s.resampleRatio d2
          (r, r.length / ch2)
        else (d2, numFrames)
      let d3 := step3.1
      let outputFrames := step3.2
      let outputSamples := outputFrames * ch2
      let buf := s.chunkBuffer ++ d3.take outputSamples
      let needed := s.samplesPerChunk * (if s.isMono then 1 else ch2)
      if s.hasDataCallback then
        let res := emitChunks needed buf
        ({ s with chunkBuffer := res.1 }, res.2)
      else
        ({ s with chunkBuffer := buf }, [])

/-- The processing pipeline exactly as `processAudioData` but with the
resampling stage removed, used to state that no resampling pass is
applied when the resample ratio is 1. -/
def processAudioDataNoResample (s : CaptureState) (data : List ℚ) (numFrames : ℕ) :
    CaptureState × List (List ℚ) :=
  match s.mixFormat with
  | none => (s, [])
  | some fmt =>
    if numFrames = 0 then (s, [])
    else
      let numChannels := fmt.nChannels
      let d0 := data.take (numFrames * numChannels)
      let d1 := if s.gain ≠ 1 then applyGain s.gain d0 else d0
      let step2 :=
        if s.isMono ∧ 1 < numChannels then (convertToMono numChannels numFrames d1, 1)
        else (d1, numChannels)
      let d2 := step2.1
      let ch2 := step2.2
      let outputSamples := numFrames * ch2
      let buf := s.chunkBuffer ++ d2.take outputSamples
      let needed := s.samplesPerChunk * (if s.isMono then 1 else ch2)
      if s.hasDataCallback then
        let res := emitChunks needed buf
        ({ s with chunkBuffer := res.1 }, res.2)
      else
        ({ s with chunkBuffer := buf }, [])

/-- The tail of one `CaptureThread` loop iteration
(wasapi_capture.cpp:533-559): update `lastDataTime_` when audio arrived,
otherwise run the silence watchdog.  `now` is the current clock reading
in milliseconds; `duration_cast<milliseconds>` and
`static_cast<int64_t>(chunkDurationMs_)` truncate, modelled by the floor
(both quantities are non-negative on the monotone clock).  Returns the
updated state and the synthetic chunks handed to the data callback. -/
def silenceStep (s : CaptureState) (receivedAudio : Bool) (now : ℚ) :
    CaptureState × List (List ℚ) :=
  let s0 := if receivedAudio then { s with lastDataTime := now } else s
  if s0.emitSilence ∧ !receivedAudio then
    let elapsedMs : ℤ := ⌊now - s0.lastDataTime⌋
    let chunkDurMs : ℤ := ⌊s0.chunkDurationMs⌋
    if chunkDurMs ≤ elapsedMs then
      let numChannels :=
        if s0.isMono then 1 else
          match s0.mixFormat with
          | some f => f.nChannels
          | none => 2
      let silentSamples := s0.samplesPerChunk * numChannels
      let outs :=
        if 0 < silentSamples ∧ s0.hasDataCallback then
          [List.replicate silentSamples (0 : ℚ)]
        else []
      ({ s0 with lastDataTime := now }, outs)
    else (s0, [])
  else (s0, [])

/-! ### Environment predicates and sample values -/

/-- All native calls of `InitializeSystemLoopback` succeed. -/
def sysEnvOk (e : SysEnv) : Prop :=
  0 ≤ e.coCreateHr ∧ 0 ≤ e.getEndpointHr ∧ 0 ≤ e.activateHr ∧
  0 ≤ e.getMixFormatHr ∧ 0 ≤ e.initHr ∧ 0 ≤ e.getServiceHr

/-- All native calls of `InitializeProcessLoopback` succeed. -/
def procEnvOk (e : ProcEnv) : Prop :=
  0 ≤ e.activateAsyncHr ∧ e.hasOperation = true ∧ 0 ≤ e.getActivateResultHr ∧
  0 ≤ e.activateResultHr ∧ 0 ≤ e.queryInterfaceHr ∧ 0 ≤ e.getMixFormatHr ∧
  0 ≤ e.initHr ∧ 0 ≤ e.getServiceHr

/-- All native calls of `InitializeMicrophone` succeed. -/
def micEnvOk (e : MicEnv) : Prop :=
  0 ≤ e.coCreateHr ∧ 0 ≤ e.getDeviceHr ∧ 0 ≤ e.activateHr ∧
  0 ≤ e.getMixFormatHr ∧ 0 ≤ e.initHr ∧ 0 ≤ e.getServiceHr

instance (e : SysEnv) : Decidable (sysEnvOk e) := by unfold sysEnvOk; infer_instance

instance (e : ProcEnv) : Decidable (procEnvOk e) := by unfold procEnvOk; infer_instance

instance (e : MicEnv) : Decidable (micEnvOk e) := by unfold micEnvOk; infer_instance

/-- A fully succeeding system-loopback environment reporting format `f`. -/
def okSysEnv (f : MixFormat) : SysEnv := ⟨0, 0, 0, 0, f, 0, 0⟩

/-- A fully succeeding process-loopback environment reporting format `f`. -/
def okProcEnv (f : MixFormat) : ProcEnv := ⟨0, true, 0, 0, 0, 0, f, 0, 0⟩

/-- A fully succeeding microphone environment reporting format `f`. -/
def okMicEnv (f : MixFormat) : MicEnv := ⟨0, 0, 0, 0, f, 0, 0⟩

/-! ### Helper lemmas -/

theorem initSystemLoopback_ok (env : SysEnv) (s : CaptureState) (h : sysEnvOk env) :
    initSystemLoopback env s =
      (env.getServiceHr,
        { s with
          audioClient := true
          captureClient := true
          mixFormat := some env.deviceFormat }) := by
  obtain ⟨h1, h2, h3, h4, h5, h6⟩ := h
  simp [initSystemLoopback, FAILED, not_lt.mpr h1, not_lt.mpr h2, not_lt.mpr h3,
    not_lt.mpr h4, not_lt.mpr h5, not_lt.mpr h6]

theorem initProcessLoopback_ok (env : ProcEnv) (pid : Int) (mode : Bool)
    (s : CaptureState) (h : procEnvOk env) :
    initProcessLoopback env pid mode s =
      (env.getServiceHr,
        { s with
          audioClient := true
          captureClient := true
          mixFormat := some env.deviceFormat }) := by
  obtain ⟨h1, h2, h3, h4, h5, h6, h7, h8⟩ := h
  simp [initProcessLoopback, FAILED, not_lt.mpr h1, h2, not_lt.mpr h3, not_lt.mpr h4,
    not_lt.mpr h5, not_lt.mpr h6, not_lt.mpr h7, not_lt.mpr h8]

theorem initMicrophone_ok (env : MicEnv) (dev : Option String)
    (s : CaptureState) (h : micEnvOk env) :
    initMicrophone env dev s =
      (env.getServiceHr,
        { s with
          audioClient := true
          captureClient := true
          mixFormat := some env.deviceFormat }) := by
  obtain ⟨h1, h2, h3, h4, h5, h6⟩ := h
  simp [initMicrophone, FAILED, not_lt.mpr h1, not_lt.mpr h2, not_lt.mpr h3,
    not_lt.mpr h4, not_lt.mpr h5, not_lt.mpr h6]

/-- Fields of the session that the negotiation functions never touch,
and the fact that they never release a held resource. -/
def retainsAndPreserves (s t : CaptureState) : Prop :=
  (s.audioClient = true → t.audioClient = true) ∧
  (s.captureClient = true → t.captureClient = true) ∧
  (s.mixFormat.isSome = true → t.mixFormat.isSome = true) ∧
  t.running = s.running ∧ t.hasEventCallback = s.hasEventCallback ∧
  t.hasMetadataCallback = s.hasMetadataCallback ∧
  t.hasDataCallback = s.hasDataCallback ∧
  t.targetSampleRate = s.targetSampleRate ∧
  t.chunkDurationMs = s.chunkDurationMs ∧ t.isMono = s.isMono ∧
  t.gain = s.gain ∧ t.emitSilence = s.emitSilence ∧
  t.samplesPerChunk = s.samplesPerChunk ∧ t.resampleRatio = s.resampleRatio ∧
  t.chunkBuffer = s.chunkBuffer ∧ t.lastDataTime = s.lastDataTime

theorem initSystemLoopback_retains (env : SysEnv) (s : CaptureState) :
    retainsAndPreserves s (initSystemLoopback env s).2 := by
  unfold initSystemLoopback retainsAndPreserves
  repeat' split
  all_goals simp

theorem initProcessLoopback_retains (env : ProcEnv) (pid : Int) (mode : Bool)
    (s : CaptureState) :
    retainsAndPreserves s (initProcessLoopback env pid mode s).2 := by
  unfold initProcessLoopback retainsAndPreserves
  repeat' split
  all_goals simp

theorem initMicrophone_retains (env : MicEnv) (dev : Option String) (s : CaptureState) :
    retainsAndPreserves s (initMicrophone env dev s).2 := by
  unfold initMicrophone retainsAndPreserves
  repeat' split
  all_goals simp

theorem emitChunksGo_spec (needed : ℕ) (hpos : 0 < needed) :
    ∀ (fuel : ℕ) (buf : List ℚ), buf.length ≤ fuel →
      (emitChunksGo needed fuel buf).1.length < needed ∧
      (∀ c ∈ (emitChunksGo needed fuel buf).2, c.length = needed) ∧
      (emitChunksGo needed fuel buf).2.flatten ++ (emitChunksGo needed fuel buf).1 = buf := by
  intro fuel
  induction fuel with
  | zero =>
    intro buf hlen
    have : buf = [] := List.length_eq_zero.mp (Nat.le_zero.mp hlen)
    subst this
    simp [emitChunksGo, hpos]
  | succ k ih =>
    intro buf hlen
    rw [emitChunksGo]
    split
    case isTrue hc =>
      have hdrop : (buf.drop needed).length ≤ k := by
        simp only [List.length_drop]
        omega
      obtain ⟨ih1, ih2, ih3⟩ := ih (buf.drop needed) hdrop
      refine ⟨ih1, ?_, ?_⟩
      · intro c hc2
        simp only [List.mem_cons] at hc2
        rcases hc2 with rfl | hc2
        · exact List.length_take_of_le hc.2
        · exact ih2 c hc2
      · simp only [List.flatten_cons, List.append_assoc, ih3]
        exact List.take_append_drop needed buf
    case isFalse hc =>
      have : buf.length < needed := by
        rcases not_and_or.mp hc with h | h
        · omega
        · omega
      exact ⟨this, by simp, by simp⟩

theorem emitChunks_spec (needed : ℕ) (hpos : 0 < needed) (buf : List ℚ) :
    (emitChunks needed buf).1.length < needed ∧
    (∀ c ∈ (emitChunks needed buf).2, c.length = needed) ∧
    (emitChunks needed buf).2.flatten ++ (emitChunks needed buf).1 = buf :=
  emitChunksGo_spec needed hpos buf.length buf le_rfl

theorem emitChunks_small (needed : ℕ) (buf : List ℚ) (h : buf.length < needed) :
    emitChunks needed buf = (buf, []) := by
  unfold emitChunks
  cases hb : buf.length with
  | zero => rw [emitChunksGo]
  | succ k =>
    rw [emitChunksGo]
    rw [if_neg]
    omega

/-- The body of `ProcessAudioData` on a non-trivial call always ends by
draining the extended buffer through the emission loop: the result is
the output of the emission loop on `chunkBuffer_` extended by the processed
samples of this batch, with threshold `samplesNeeded`. -/
theorem processAudioData_run (s : CaptureState) (fmt : MixFormat) (data : List ℚ)
    (numFrames : ℕ) (hfmt : s.mixFormat = some fmt) (hn : numFrames ≠ 0)
    (hcb : s.hasDataCallback = true) :
    ∃ ext : List ℚ,
      processAudioData s data numFrames =
        ({ s with chunkBuffer := (emitChunks (samplesNeeded s) (s.chunkBuffer ++ ext)).1 },
         (emitChunks (samplesNeeded s) (s.chunkBuffer ++ ext)).2) := by
  have hout : samplesNeeded s = s.samplesPerChunk * (if s.isMono then 1 else fmt.nChannels) := by
    simp [samplesNeeded, outputChannels, hfmt]
  unfold processAudioData
  rw [hfmt]
  simp only [if_neg hn, hcb, if_true, hout]
  by_cases hm : s.isMono
  · simp only [hm, if_true]
    exact ⟨_, rfl⟩
  · have hm' : s.isMono = false := by
      cases h : s.isMono
      · rfl
      · exact absurd h hm
    simp only [hm', Bool.false_eq_true, false_and, if_false]
    exact ⟨_, rfl⟩

/-- C4: after each `ProcessAudioData` call on a live session (mix format
held, non-empty batch, data callback registered, positive emission
threshold), the accumulated buffer holds strictly fewer than
`samplesNeeded` samples; every chunk emitted by the call holds exactly
`samplesNeeded` samples; and the emitted chunks followed by the
remaining buffer are the old buffer followed by the processed samples
of this batch (oldest-first draining with no loss). -/
theorem c4_buffer_invariant (s : CaptureState) (fmt : MixFormat) (data : List ℚ)
    (numFrames : ℕ) (hfmt : s.mixFormat = some fmt) (hn : numFrames ≠ 0)
    (hcb : s.hasDataCallback = true) (hneed : 0 < samplesNeeded s) :
    (processAudioData s data numFrames).1.chunkBuffer.length < samplesNeeded s ∧
    (∀ c ∈ (processAudioData s data numFrames).2, c.length = samplesNeeded s) ∧
    ∃ newSamples,
      (processAudioData s data numFrames).2.flatten ++
        (processAudioData s data numFrames).1.chunkBuffer = s.chunkBuffer ++ newSamples := by
  obtain ⟨ext, heq⟩ := processAudioData_run s fmt data numFrames hfmt hn hcb
  obtain ⟨h1, h2, h3⟩ := emitChunks_spec (samplesNeeded s) hneed (s.chunkBuffer ++ ext)
  rw [heq]
  exact ⟨h1, h2, ⟨ext, by simpa using h3⟩⟩

/-- Witness for C4: a mono session with `samplesNeeded = 2` processing a
three-sample batch emits one two-sample chunk and retains one sample. -/
theorem c4_buffer_invariant_witness :
    ({ newCapture true true true with
        mixFormat := some ⟨48000, 1⟩, samplesPerChunk := 2 } : CaptureState).mixFormat
        = some ⟨48000, 1⟩ ∧
    (3 : ℕ) ≠ 0 ∧
    ({ newCapture true true true with
        mixFormat := some ⟨48000, 1⟩, samplesPerChunk := 2 } : CaptureState).hasDataCallback
        = true ∧
    0 < samplesNeeded { newCapture true true true with
        mixFormat := some ⟨48000, 1⟩, samplesPerChunk := 2 } ∧
    ((processAudioData { newCapture true true true with
        mixFormat := some ⟨48000, 1⟩, samplesPerChunk := 2 } [1, 2, 3] 3).1.chunkBuffer.length
      < samplesNeeded { newCapture true true true with
        mixFormat := some ⟨48000, 1⟩, samplesPerChunk := 2 } ∧
     (∀ c ∈ (processAudioData { newCapture true true true with
        mixFormat := some ⟨48000, 1⟩, samplesPerChunk := 2 } [1, 2, 3] 3).2,
        c.length = samplesNeeded { newCapture true true true with
          mixFormat := some ⟨48000, 1⟩, samplesPerChunk := 2 }) ∧
     ∃ newSamples,
       (processAudioData { newCapture true true true with
          mixFormat := some ⟨48000, 1⟩, samplesPerChunk := 2 } [1, 2, 3] 3).2.flatten ++
         (processAudioData { newCapture true true true with
            mixFormat := some ⟨48000, 1⟩, samplesPerChunk := 2 } [1, 2, 3] 3).1.chunkBuffer
         = ({ newCapture true true true with
              mixFormat := some ⟨48000, 1⟩, samplesPerChunk := 2 } : CaptureState).chunkBuffer
             ++ newSamples) :=
  ⟨rfl, by decide, rfl, by simp [samplesNeeded, outputChannels, newCapture],
    c4_buffer_invariant _ ⟨48000, 1⟩ [1, 2, 3] 3 rfl (by decide) rfl
      (by simp [samplesNeeded, outputChannels, newCapture])⟩

/-- C8: a `StartSystemAudio` or `StartMicrophone` call on a session that
is already running returns -2, leaves every session field untouched, and
invokes no callback. -/
theorem c8_already_running (env : SystemStartEnv) (p : SystemParams)
    (envm : MicStartEnv) (pm : MicParams) (s : CaptureState) (h : s.running = true) :
    startSystemAudio env p s = (-2, s, []) ∧ startMicrophone envm pm s = (-2, s, []) := by
  constructor
  · simp [startSystemAudio, h]
  · simp [startMicrophone, h]

/-- Witness for C8 at a concrete running session. -/
theorem c8_already_running_witness :
    ({ newCapture true true true with running := true } : CaptureState).running = true ∧
    startSystemAudio ⟨okProcEnv ⟨48000, 2⟩, okSysEnv ⟨48000, 2⟩, 0⟩
        ⟨48000, 200, false, true, true, [], 0, [], 0⟩
        { newCapture true true true with running := true } =
      (-2, { newCapture true true true with running := true }, []) ∧
    startMicrophone ⟨okMicEnv ⟨48000, 2⟩, 0⟩ ⟨48000, 200, true, true, none, 1⟩
        { newCapture true true true with running := true } =
      (-2, { newCapture true true true with running := true }, []) :=
  ⟨rfl,
    (c8_already_running ⟨okProcEnv ⟨48000, 2⟩, okSysEnv ⟨48000, 2⟩, 0⟩
      ⟨48000, 200, false, true, true, [], 0, [], 0⟩ ⟨okMicEnv ⟨48000, 2⟩, 0⟩
      ⟨48000, 200, true, true, none, 1⟩ _ rfl).1,
    (c8_already_running ⟨okProcEnv ⟨48000, 2⟩, okSysEnv ⟨48000, 2⟩, 0⟩
      ⟨48000, 200, false, true, true, [], 0, [], 0⟩ ⟨okMicEnv ⟨48000, 2⟩, 0⟩
      ⟨48000, 200, true, true, none, 1⟩ _ rfl).2⟩

/-- C9: `Stop` on a session that is not running returns 0 at once with
no event and no state change; on a running session it returns 0, emits
exactly one `Stopped` (type 1) event and clears the running flag, and a
second `Stop` immediately after returns 0 and emits nothing, so two
consecutive calls produce exactly one `Stopped` event and no error. -/
theorem c9_stop_idempotent (s : CaptureState) :
    (s.running = false → stop s = (0, s, [])) ∧
    (s.running = true → s.hasEventCallback = true →
      stop s = (0, { s with running := false }, [Output.event 1 none]) ∧
      stop { s with running := false } = (0, { s with running := false }, [])) := by
  constructor
  · intro h
    simp [stop, h]
  · intro h he
    constructor
    · simp [stop, h, he]
    · simp [stop]

/-- Witness for C9 at a concrete idle session and a concrete running session. -/
theorem c9_stop_idempotent_witness :
    ((newCapture true true true).running = false ∧
      stop (newCapture true true true) = (0, newCapture true true true, [])) ∧
    (({ newCapture true true true with running := true } : CaptureState).running = true ∧
      ({ newCapture true true true with running := true } : CaptureState).hasEventCallback
        = true ∧
      stop { newCapture true true true with running := true } =
        (0, { { newCapture true true true with running := true } with running := false },
          [Output.event 1 none]) ∧
      stop { { newCapture true true true with running := true } with running := false } =
        (0, { { newCapture true true true with running := true } with running := false },
          [])) :=
  ⟨⟨rfl, (c9_stop_idempotent (newCapture true true true)).1 rfl⟩,
    ⟨rfl, rfl,
      ((c9_stop_idempotent { newCapture true true true with running := true }).2 rfl rfl).1,
      ((c9_stop_idempotent { newCapture true true true with running := true }).2 rfl rfl).2⟩⟩

theorem ite_singleton_length_le {α : Type} (c : Prop) [Decidable c] (x : α) :
    (if c then [x] else ([] : List α)).length ≤ 1 := by
  split <;> simp

theorem getD_map_range (f : ℕ → ℚ) (n i : ℕ) (h : i < n) :
    ((List.range n).map f).getD i 0 = f i := by
  rw [List.getD_eq_getElem?_getD, List.getElem?_map, List.getElem?_range h]
  rfl

theorem sum_range_getD (l : List ℚ) (a c : ℕ) :
    ((List.range c).map (fun j => l.getD (a + j) 0)).sum = ((l.drop a).take c).sum := by
  induction c generalizing a with
  | zero => simp
  | succ k ih =>
    rw [List.range_succ_eq_map]
    simp only [List.map_cons, List.sum_cons, List.map_map, Function.comp_def,
      Nat.succ_eq_add_one]
    have hshift : ((List.range k).map fun j => l.getD (a + (j + 1)) 0)
        = (List.range k).map fun j => l.getD (a + 1 + j) 0 := by
      apply List.map_congr_left
      intro j _
      congr 1
      omega
    cases hd : l.drop a with
    | nil =>
      have hle : l.length ≤ a := List.drop_eq_nil_iff.mp hd
      have hz : ∀ j : ℕ, l.getD (a + j) 0 = 0 := fun j =>
        List.getD_eq_default l 0 (le_trans hle (Nat.le_add_right a j))
      have hd1 : l.drop (a + 1) = [] :=
        List.drop_eq_nil_iff.mpr (le_trans hle (Nat.le_add_right a 1))
      rw [hshift, ih (a + 1), hd1]
      simpa using hz 0
    | cons x rest =>
      have hx : l.getD a 0 = x := by
        have h0 : l[a]? = some x := by
          have := congrArg (fun t : List ℚ => t[0]?) hd
          simpa [List.getElem?_drop] using this
        simp [List.getD_eq_getElem?_getD, h0]
      have hrest : l.drop (a + 1) = rest := by
        have h1 : (l.drop a).drop 1 = rest := by rw [hd]; rfl
        rw [List.drop_drop] at h1
        simpa [Nat.add_comm] using h1
      rw [hshift, ih (a + 1), hrest, List.take_succ_cons, List.sum_cons,
        Nat.add_zero, hx]

theorem convertToMono_length (c n : ℕ) (input : List ℚ) :
    (convertToMono c n input).length = n := by
  simp [convertToMono]

theorem convertToMono_getD (c n : ℕ) (input : List ℚ) (i : ℕ) (h : i < n) :
    (convertToMono c n input).getD i 0 = ((input.drop (i * c)).take c).sum / c := by
  unfold convertToMono
  rw [getD_map_range _ n i h]
  rw [← sum_range_getD input (i * c) c]

/-- C7: each downmixed sample is the arithmetic mean of the native
channels of its frame (the channel sum of the frame divided by the
channel count); for two channels, frames (1, 1) and (1, -1) yield 1 and
0; and on a unit-gain, unit-ratio session the downmix stage runs exactly
when mono output is requested and the native channel count exceeds one:
with mono requested on a multichannel format the batch lands in the
buffer downmixed, and with mono not requested it lands unchanged. -/
theorem c7_downmix (c n : ℕ) (input : List ℚ) (s : CaptureState) (fmt : MixFormat)
    (data : List ℚ) (numFrames : ℕ)
    (hfmt : s.mixFormat = some fmt) (hg : s.gain = 1) (hr : s.resampleRatio = 1)
    (hcb : s.hasDataCallback = true) (hbuf : s.chunkBuffer = [])
    (hn : numFrames ≠ 0) (hlen : data.length = numFrames * fmt.nChannels) :
    (∀ i, i < n → (convertToMono c n input).getD i 0
        = ((input.drop (i * c)).take c).sum / c) ∧
    (convertToMono 2 1 [1, 1] = [1] ∧ convertToMono 2 1 [1, -1] = [0]) ∧
    (s.isMono = true → 1 < fmt.nChannels → numFrames < samplesNeeded s →
      (processAudioData s data numFrames).1.chunkBuffer
          = convertToMono fmt.nChannels numFrames data ∧
      (processAudioData s data numFrames).2 = []) ∧
    (s.isMono = false → numFrames * fmt.nChannels < samplesNeeded s →
      (processAudioData s data numFrames).1.chunkBuffer = data ∧
      (processAudioData s data numFrames).2 = []) := by
  refine ⟨fun i hi => convertToMono_getD c n input i hi, ⟨?_, ?_⟩, ?_, ?_⟩
  · norm_num [convertToMono, List.range_succ, List.getD]
  · norm_num [convertToMono, List.range_succ, List.getD]
  · intro hm hch hsmall
    have hdata : data.take (numFrames * fmt.nChannels) = data := by
      rw [← hlen]
      exact List.take_length data
    have hsm : numFrames < s.samplesPerChunk := by
      simpa [samplesNeeded, outputChannels, hm] using hsmall
    have hclen : (convertToMono fmt.nChannels numFrames data).length < s.samplesPerChunk := by
      rw [convertToMono_length]
      exact hsm
    have htake : List.take numFrames (convertToMono fmt.nChannels numFrames data)
        = convertToMono fmt.nChannels numFrames data :=
      List.take_of_length_le (le_of_eq (convertToMono_length fmt.nChannels numFrames data))
    unfold processAudioData
    rw [hfmt]
    simp [hn, hg, hr, hm, hch, hbuf, hdata, hcb, htake, emitChunks_small _ _ hclen]
  · intro hm hsmall
    have hdata : data.take (numFrames * fmt.nChannels) = data := by
      rw [← hlen]
      exact List.take_length data
    have hsm : numFrames * fmt.nChannels < s.samplesPerChunk * fmt.nChannels := by
      simpa [samplesNeeded, outputChannels, hm, hfmt] using hsmall
    have hdlen : data.length < s.samplesPerChunk * fmt.nChannels := by
      rw [hlen]
      exact hsm
    unfold processAudioData
    rw [hfmt]
    simp [hn, hg, hr, hm, hbuf, hdata, hcb, emitChunks_small _ _ hdlen]

/-- A mono session on a stereo 48 kHz format with four-sample chunks,
used as the concrete input of the downmix witness. -/
def monoStereoSession : CaptureState :=
  { newCapture true true true with mixFormat := some ⟨48000, 2⟩, samplesPerChunk := 4 }

/-- Resampling exactly as the specification words it: for output index
`i`, `srcPos = i / ratio`, `floorIdx = floor(srcPos)`,
`frac = srcPos - floorIdx`; the value is
`(1-frac)*input[floorIdx] + frac*input[floorIdx+1]`, clamped to
`input[floorIdx]` when `floorIdx+1` is out of range and to zero when
`floorIdx` itself is out of range. -/
def resampleSpecValue (ratio : ℚ) (input : List ℚ) (i : ℕ) : ℚ :=
  let srcPos : ℚ := (i : ℚ) / ratio
  let floorIdx : ℤ := ⌊srcPos⌋
  let frac : ℚ := srcPos - (floorIdx : ℚ)
  if floorIdx < 0 ∨ (input.length : ℤ) ≤ floorIdx then 0
  else if (input.length : ℤ) ≤ floorIdx + 1 then input.getD floorIdx.toNat 0
  else (1 - frac) * input.getD floorIdx.toNat 0 + frac * input.getD (floorIdx.toNat + 1) 0

theorem resampleAudio_length (ratio : ℚ) (input : List ℚ) :
    (resampleAudio ratio input).length = (⌊(input.length : ℚ) * ratio⌋).toNat := by
  simp only [resampleAudio, List.length_map, List.length_range]

theorem resampleAudio_getD (ratio : ℚ) (input : List ℚ) (i : ℕ)
    (hi : i < (resampleAudio ratio input).length) :
    (resampleAudio ratio input).getD i 0 =
      (if (⌊(i : ℚ) / ratio⌋).toNat + 1 < input.length then
        input.getD (⌊(i : ℚ) / ratio⌋).toNat 0 *
            (1 - ((i : ℚ) / ratio - ((⌊(i : ℚ) / ratio⌋).toNat : ℚ))) +
          input.getD ((⌊(i : ℚ) / ratio⌋).toNat + 1) 0 *
            ((i : ℚ) / ratio - ((⌊(i : ℚ) / ratio⌋).toNat : ℚ))
      else if (⌊(i : ℚ) / ratio⌋).toNat < input.length then
        input.getD (⌊(i : ℚ) / ratio⌋).toNat 0
      else 0) := by
  rw [resampleAudio_length] at hi
  unfold resampleAudio
  exact getD_map_range _ _ _ hi

theorem processAudioData_ratio_one (s : CaptureState) (d : List ℚ) (n : ℕ)
    (h : s.resampleRatio = 1) :
    processAudioData s d n = processAudioDataNoResample s d n := by
  unfold processAudioData processAudioDataNoResample
  rcases hmf : s.mixFormat with _ | fmt
  · rfl
  · by_cases hn : n = 0
    · simp [hn]
    · simp [hn, h]

/-- C6: after a finalize with a positive requested rate, the resample
ratio is 1 exactly when the requested rate equals the native rate, and
the resampling branch of `ProcessAudioData` is skipped exactly when the
ratio is 1; `ResampleAudio` produces `floor(inputLength * ratio)`
samples — within one sample of `inputLength * ratio` — and each output
sample equals the interpolation formula of the specification with its
out-of-range clamping, every interpolated value lying between its two
neighbouring input samples. -/
theorem c6_resample_linear (ratio : ℚ) (input : List ℚ) (s : CaptureState)
    (fmt : MixFormat) (hratio : 0 < ratio) (hfmt : s.mixFormat = some fmt)
    (hsr : 0 < fmt.nSamplesPerSec) (ht : 0 < s.targetSampleRate) :
    ((finalizeInit s).2.1.resampleRatio = 1 ↔
      s.targetSampleRate = (fmt.nSamplesPerSec : ℚ)) ∧
    (∀ (s2 : CaptureState) (d : List ℚ) (n : ℕ), s2.resampleRatio = 1 →
      processAudioData s2 d n = processAudioDataNoResample s2 d n) ∧
    (resampleAudio ratio input).length = (⌊(input.length : ℚ) * ratio⌋).toNat ∧
    |((resampleAudio ratio input).length : ℚ) - (input.length : ℚ) * ratio| < 1 ∧
    (∀ i, i < (resampleAudio ratio input).length →
      (resampleAudio ratio input).getD i 0 = resampleSpecValue ratio input i) ∧
    (∀ i, i < (resampleAudio ratio input).length →
      (⌊(i : ℚ) / ratio⌋).toNat + 1 < input.length →
      min (input.getD (⌊(i : ℚ) / ratio⌋).toNat 0)
          (input.getD ((⌊(i : ℚ) / ratio⌋).toNat + 1) 0)
        ≤ (resampleAudio ratio input).getD i 0 ∧
      (resampleAudio ratio input).getD i 0
        ≤ max (input.getD (⌊(i : ℚ) / ratio⌋).toNat 0)
            (input.getD ((⌊(i : ℚ) / ratio⌋).toNat + 1) 0)) := by
  have hsrcnn : ∀ i : ℕ, (0 : ℚ) ≤ (i : ℚ) / ratio := fun i =>
    div_nonneg (Nat.cast_nonneg i) (le_of_lt hratio)
  have hflnn : ∀ i : ℕ, (0 : ℤ) ≤ ⌊(i : ℚ) / ratio⌋ := fun i =>
    Int.floor_nonneg.mpr (hsrcnn i)
  have hcast : ∀ i : ℕ, (((⌊(i : ℚ) / ratio⌋).toNat : ℕ) : ℚ) = ((⌊(i : ℚ) / ratio⌋ : ℤ) : ℚ) :=
    fun i => by exact_mod_cast congrArg (fun z : ℤ => (z : ℚ)) (Int.toNat_of_nonneg (hflnn i))
  have hfrac0 : ∀ i : ℕ, 0 ≤ (i : ℚ) / ratio - ((⌊(i : ℚ) / ratio⌋).toNat : ℚ) := fun i => by
    rw [hcast i]
    exact sub_nonneg.mpr (Int.floor_le _)
  have hfrac1 : ∀ i : ℕ, (i : ℚ) / ratio - ((⌊(i : ℚ) / ratio⌋).toNat : ℚ) ≤ 1 := fun i => by
    rw [hcast i]
    have := Int.lt_floor_add_one ((i : ℚ) / ratio)
    push_cast at this ⊢
    linarith
  refine ⟨?_, ?_, resampleAudio_length ratio input, ?_, ?_, ?_⟩
  · have hr0 : ((fmt.nSamplesPerSec : ℕ) : ℚ) ≠ 0 := Nat.cast_ne_zero.mpr hsr.ne'
    unfold finalizeInit
    rw [hfmt]
    simp [ht, div_eq_one_iff_eq hr0]
  · exact fun s2 d n h => processAudioData_ratio_one s2 d n h
  · rw [resampleAudio_length]
    have hnn : (0 : ℚ) ≤ (input.length : ℚ) * ratio :=
      mul_nonneg (Nat.cast_nonneg _) (le_of_lt hratio)
    have hfnn : (0 : ℤ) ≤ ⌊(input.length : ℚ) * ratio⌋ := Int.floor_nonneg.mpr hnn
    have hc : (((⌊(input.length : ℚ) * ratio⌋).toNat : ℕ) : ℚ)
        = ((⌊(input.length : ℚ) * ratio⌋ : ℤ) : ℚ) := by
      exact_mod_cast congrArg (fun z : ℤ => (z : ℚ)) (Int.toNat_of_nonneg hfnn)
    rw [hc, abs_sub_comm, abs_of_nonneg (sub_nonneg.mpr (Int.floor_le _))]
    have := Int.lt_floor_add_one ((input.length : ℚ) * ratio)
    linarith
  · intro i hi
    rw [resampleAudio_getD ratio input i hi]
    have hto : ((⌊(i : ℚ) / ratio⌋).toNat : ℤ) = ⌊(i : ℚ) / ratio⌋ :=
      Int.toNat_of_nonneg (hflnn i)
    unfold resampleSpecValue
    by_cases h1 : (⌊(i : ℚ) / ratio⌋).toNat + 1 < input.length
    · have h1' : ¬ ((input.length : ℤ) ≤ ⌊(i : ℚ) / ratio⌋ + 1) := by omega
      have h0' : ¬ (⌊(i : ℚ) / ratio⌋ < 0 ∨ (input.length : ℤ) ≤ ⌊(i : ℚ) / ratio⌋) := by
        push_neg
        omega
      rw [if_pos h1, if_neg h0', if_neg h1', hcast i]
      ring
    · rw [if_neg h1]
      by_cases h2 : (⌊(i : ℚ) / ratio⌋).toNat < input.length
      · have h0' : ¬ (⌊(i : ℚ) / ratio⌋ < 0 ∨ (input.length : ℤ) ≤ ⌊(i : ℚ) / ratio⌋) := by
          push_neg
          omega
        have h1' : (input.length : ℤ) ≤ ⌊(i : ℚ) / ratio⌋ + 1 := by omega
        rw [if_pos h2, if_neg h0', if_pos h1']
      · have h0' : ⌊(i : ℚ) / ratio⌋ < 0 ∨ (input.length : ℤ) ≤ ⌊(i : ℚ) / ratio⌋ := by
          right
          omega
        rw [if_neg h2, if_pos h0']
  · intro i hi hlt
    rw [resampleAudio_getD ratio input i hi, if_pos hlt]
    have h0 := hfrac0 i
    have h1 := hfrac1 i
    rcases le_total (input.getD (⌊(i : ℚ) / ratio⌋).toNat 0)
        (input.getD ((⌊(i : ℚ) / ratio⌋).toNat + 1) 0) with hab | hab
    · rw [min_eq_left hab, max_eq_right hab]
      constructor <;> nlinarith
    · rw [min_eq_right hab, max_eq_left hab]
      constructor <;> nlinarith

/-- Witness for C7: a stereo frame (1, -1) downmixed on a mono session
with four-sample chunks yields buffer [0] and no emission. -/
theorem c7_downmix_witness :
    monoStereoSession.mixFormat = some ⟨48000, 2⟩ ∧
    monoStereoSession.gain = 1 ∧
    (([1, -1] : List ℚ).length = 1 * (⟨48000, 2⟩ : MixFormat).nChannels) ∧
    ((∀ i, i < 1 → (convertToMono 2 1 [1, -1]).getD i 0
        = ((([1, -1] : List ℚ).drop (i * 2)).take 2).sum / 2) ∧
     (convertToMono 2 1 [1, 1] = [1] ∧ convertToMono 2 1 [1, -1] = [0]) ∧
     (monoStereoSession.isMono = true →
        1 < (⟨48000, 2⟩ : MixFormat).nChannels →
        1 < samplesNeeded monoStereoSession →
        (processAudioData monoStereoSession [1, -1] 1).1.chunkBuffer
            = convertToMono 2 1 [1, -1] ∧
        (processAudioData monoStereoSession [1, -1] 1).2 = []) ∧
     (monoStereoSession.isMono = false →
        1 * (⟨48000, 2⟩ : MixFormat).nChannels < samplesNeeded monoStereoSession →
        (processAudioData monoStereoSession [1, -1] 1).1.chunkBuffer = [1, -1] ∧
        (processAudioData monoStereoSession [1, -1] 1).2 = [])) :=
  ⟨rfl, rfl, by decide,
    c7_downmix 2 1 [1, -1] monoStereoSession ⟨48000, 2⟩ [1, -1] 1
      rfl rfl rfl rfl rfl (by decide) (by decide)⟩

/-- C5: with silence emission enabled, a loop iteration with no real
frames whose elapsed time since `lastDataTime_` is at least the chunk
duration emits exactly one all-zero chunk of `samplesNeeded` samples and
resets `lastDataTime_` to now; any single iteration emits at most one
synthetic chunk; and after such a reset, a data-less iteration occurring
less than one (whole-millisecond) chunk interval later emits nothing —
so multi-interval gaps are never backfilled with more than one chunk per
interval. -/
theorem c5_silence_watchdog (s : CaptureState) (now : ℚ)
    (hen : s.emitSilence = true) (hcb : s.hasDataCallback = true)
    (hsz : 0 < samplesNeeded s)
    (hgap : s.chunkDurationMs ≤ now - s.lastDataTime) :
    silenceStep s false now =
      ({ s with lastDataTime := now }, [List.replicate (samplesNeeded s) 0]) ∧
    (∀ (s2 : CaptureState) (ra : Bool) (now2 : ℚ), (silenceStep s2 ra now2).2.length ≤ 1) ∧
    (∀ m : ℕ, s.chunkDurationMs = (m : ℚ) →
      ∀ now2 : ℚ, now2 - now < (m : ℚ) →
        silenceStep { s with lastDataTime := now } false now2 =
          ({ s with lastDataTime := now }, [])) := by
  refine ⟨?_, ?_, ?_⟩
  · have hfl : ⌊s.chunkDurationMs⌋ ≤ ⌊now - s.lastDataTime⌋ := Int.floor_le_floor hgap
    by_cases hm : s.isMono = true
    · have hsz2 : 0 < s.samplesPerChunk := by
        simpa [samplesNeeded, outputChannels, hm] using hsz
      simp [silenceStep, hen, hcb, hfl, samplesNeeded, outputChannels, hm, hsz2.ne']
    · have hm' : s.isMono = false := by simpa using hm
      have hsz2 : 0 < s.samplesPerChunk *
          (match s.mixFormat with
            | some f => f.nChannels
            | none => 2) := by
        simpa [samplesNeeded, outputChannels, hm'] using hsz
      have hz := Nat.mul_ne_zero_iff.mp hsz2.ne'
      simp [silenceStep, hen, hcb, hfl, samplesNeeded, outputChannels, hm',
        Nat.pos_of_ne_zero hz.1, hz.2]
  · intro s2 ra now2
    cases ra
    · by_cases h1 : s2.emitSilence = true <;>
        by_cases h2 : ⌊s2.chunkDurationMs⌋ ≤ ⌊now2 - s2.lastDataTime⌋ <;>
          simp [silenceStep, h1, h2, ite_singleton_length_le]
    · simp [silenceStep]
  · intro m hm now2 hlt
    have h1 : ⌊now2 - now⌋ < (m : ℤ) := by
      rw [Int.floor_lt]
      exact_mod_cast hlt
    simp [silenceStep, hen, hm, Int.floor_natCast, not_le.mpr h1]

/-- Witness for C5: a session with two-sample chunks and a 200 ms
interval, silent since time 0, checked at time 200. -/
theorem c5_silence_watchdog_witness :
    ({ newCapture true true true with samplesPerChunk := 2 } : CaptureState).emitSilence
      = true ∧
    ({ newCapture true true true with samplesPerChunk := 2 } : CaptureState).hasDataCallback
      = true ∧
    0 < samplesNeeded { newCapture true true true with samplesPerChunk := 2 } ∧
    ({ newCapture true true true with samplesPerChunk := 2 } : CaptureState).chunkDurationMs
      ≤ (200 : ℚ) -
        ({ newCapture true true true with samplesPerChunk := 2 } : CaptureState).lastDataTime ∧
    (silenceStep { newCapture true true true with samplesPerChunk := 2 } false 200 =
      ({ { newCapture true true true with samplesPerChunk := 2 } with lastDataTime := 200 },
        [List.replicate
          (samplesNeeded { newCapture true true true with samplesPerChunk := 2 }) 0]) ∧
    (∀ (s2 : CaptureState) (ra : Bool) (now2 : ℚ), (silenceStep s2 ra now2).2.length ≤ 1) ∧
    (∀ m : ℕ,
      ({ newCapture true true true with samplesPerChunk := 2 } : CaptureState).chunkDurationMs
        = (m : ℚ) →
      ∀ now2 : ℚ, now2 - 200 < (m : ℚ) →
        silenceStep
            { { newCapture true true true with samplesPerChunk := 2 } with
              lastDataTime := 200 } false now2 =
          ({ { newCapture true true true with samplesPerChunk := 2 } with
              lastDataTime := 200 }, []))) :=
  ⟨rfl, rfl, by simp [samplesNeeded, outputChannels, newCapture],
    by norm_num [newCapture],
    c5_silence_watchdog { newCapture true true true with samplesPerChunk := 2 } 200
      rfl rfl (by simp [samplesNeeded, outputChannels, newCapture])
      (by norm_num [newCapture])⟩

theorem initSystemLoopback_cases (env : SysEnv) (s : CaptureState) :
    FAILED (initSystemLoopback env s).1 = true ∨
    (FAILED (initSystemLoopback env s).1 = false ∧
      (initSystemLoopback env s).2 =
        { s with
          audioClient := true
          captureClient := true
          mixFormat := some env.deviceFormat }) := by
  unfold initSystemLoopback
  split_ifs with h1 h2 h3 h4 h5 h6
  · exact Or.inl h1
  · exact Or.inl h2
  · exact Or.inl h3
  · exact Or.inl h4
  · exact Or.inl h5
  · exact Or.inl h6
  · exact Or.inr ⟨by simpa using h6, rfl⟩

theorem initProcessLoopback_cases (env : ProcEnv) (pid : Int) (mode : Bool)
    (s : CaptureState) :
    FAILED (initProcessLoopback env pid mode s).1 = true ∨
    (FAILED (initProcessLoopback env pid mode s).1 = false ∧
      (initProcessLoopback env pid mode s).2 =
        { s with
          audioClient := true
          captureClient := true
          mixFormat := some env.deviceFormat }) := by
  unfold initProcessLoopback
  split_ifs with h1 h2 h3 h4 h5 h6 h7 h8
  · exact Or.inl h1
  · exact Or.inl (by simp [FAILED, eFailHr])
  · exact Or.inl h3
  · exact Or.inl h4
  · exact Or.inl h5
  · exact Or.inl h6
  · exact Or.inl h7
  · exact Or.inl h8
  · exact Or.inr ⟨by simpa using h8, rfl⟩

theorem initMicrophone_cases (env : MicEnv) (dev : Option String) (s : CaptureState) :
    FAILED (initMicrophone env dev s).1 = true ∨
    (FAILED (initMicrophone env dev s).1 = false ∧
      (initMicrophone env dev s).2 =
        { s with
          audioClient := true
          captureClient := true
          mixFormat := some env.deviceFormat }) := by
  unfold initMicrophone
  split_ifs with h1 h2 h3 h4 h5 h6
  · exact Or.inl h1
  · exact Or.inl h2
  · exact Or.inl h3
  · exact Or.inl h4
  · exact Or.inl h5
  · exact Or.inl h6
  · exact Or.inr ⟨by simpa using h6, rfl⟩

theorem finalizeInit_some (s : CaptureState) (fmt : MixFormat)
    (hfmt : s.mixFormat = some fmt) :
    finalizeInit s =
      (0,
       { s with
          resampleRatio :=
            (if s.targetSampleRate > 0 then s.targetSampleRate
              else (fmt.nSamplesPerSec : ℚ)) / (fmt.nSamplesPerSec : ℚ)
          samplesPerChunk :=
            (⌊(s.chunkDurationMs / 1000) *
              (if s.targetSampleRate > 0 then s.targetSampleRate
                else (fmt.nSamplesPerSec : ℚ))⌋).toNat },
       if s.hasMetadataCallback then
         [Output.metadata
            (if s.targetSampleRate > 0 then s.targetSampleRate
              else (fmt.nSamplesPerSec : ℚ))
            (if s.isMono then 1 else fmt.nChannels) 32 true "pcm_f32le"]
       else []) := by
  unfold finalizeInit
  rw [hfmt]

theorem startTail_ok (startHr hr : Int) (hhr : ¬ hr < 0) (hst : ¬ startHr < 0)
    (s1 : CaptureState) (fmt : MixFormat) (hfmt : s1.mixFormat = some fmt) (msg : String) :
    startTail startHr (hr, s1) msg =
      (0,
       { s1 with
          resampleRatio :=
            (if s1.targetSampleRate > 0 then s1.targetSampleRate
              else (fmt.nSamplesPerSec : ℚ)) / (fmt.nSamplesPerSec : ℚ)
          samplesPerChunk :=
            (⌊(s1.chunkDurationMs / 1000) *
              (if s1.targetSampleRate > 0 then s1.targetSampleRate
                else (fmt.nSamplesPerSec : ℚ))⌋).toNat
          running := true },
       (if s1.hasMetadataCallback then
          [Output.metadata
            (if s1.targetSampleRate > 0 then s1.targetSampleRate
              else (fmt.nSamplesPerSec : ℚ))
            (if s1.isMono then 1 else fmt.nChannels) 32 true "pcm_f32le"]
        else []) ++
       (if s1.hasEventCallback then [Output.event 0 none] else [])) := by
  unfold startTail
  dsimp only
  rw [finalizeInit_some s1 fmt hfmt]
  simp [FAILED, hhr, hst]

theorem startSystemAudio_ok (env : SystemStartEnv) (p : SystemParams) (s : CaptureState)
    (fmt : MixFormat) (hrun : s.running = false)
    (hf1 : env.procEnv.deviceFormat = fmt) (hf2 : env.sysEnv.deviceFormat = fmt)
    (hps : procEnvOk env.procEnv) (hss : sysEnvOk env.sysEnv) (hstart : 0 ≤ env.startHr) :
    startSystemAudio env p s =
      (0,
       { s with
          targetSampleRate := p.sampleRate
          chunkDurationMs := if p.chunkDurationMs > 0 then p.chunkDurationMs else 200
          isMono := p.isMono
          emitSilence := p.emitSilence
          audioClient := true
          captureClient := true
          mixFormat := some fmt
          resampleRatio :=
            (if p.sampleRate > 0 then p.sampleRate else (fmt.nSamplesPerSec : ℚ)) /
              (fmt.nSamplesPerSec : ℚ)
          samplesPerChunk :=
            (⌊((if p.chunkDurationMs > 0 then p.chunkDurationMs else 200) / 1000) *
              (if p.sampleRate > 0 then p.sampleRate else (fmt.nSamplesPerSec : ℚ))⌋).toNat
          running := true },
       (if s.hasMetadataCallback then
          [Output.metadata
            (if p.sampleRate > 0 then p.sampleRate else (fmt.nSamplesPerSec : ℚ))
            (if p.isMono then 1 else fmt.nChannels) 32 true "pcm_f32le"]
        else []) ++
       (if s.hasEventCallback then [Output.event 0 none] else [])) := by
  have hgs1 : ¬ env.procEnv.getServiceHr < 0 := not_lt.mpr hps.2.2.2.2.2.2.2
  have hgs2 : ¬ env.sysEnv.getServiceHr < 0 := not_lt.mpr hss.2.2.2.2.2
  have hst : ¬ env.startHr < 0 := not_lt.mpr hstart
  unfold startSystemAudio
  simp only [hrun, Bool.false_eq_true, if_false]
  split
  · rw [initProcessLoopback_ok env.procEnv _ _ _ hps, hf1,
      startTail_ok env.startHr _ hgs1 hst _ fmt rfl]
    simp [setSysParams]
  · split
    · rw [initProcessLoopback_ok env.procEnv _ _ _ hps, hf1,
        startTail_ok env.startHr _ hgs1 hst _ fmt rfl]
      simp [setSysParams]
    · rw [initSystemLoopback_ok env.sysEnv _ hss, hf2,
        startTail_ok env.startHr _ hgs2 hst _ fmt rfl]
      simp [setSysParams]

theorem startMicrophone_ok (env : MicStartEnv) (p : MicParams) (s : CaptureState)
    (fmt : MixFormat) (hrun : s.running = false)
    (hf : env.micEnv.deviceFormat = fmt)
    (hms : micEnvOk env.micEnv) (hstart : 0 ≤ env.startHr) :
    startMicrophone env p s =
      (0,
       { s with
          targetSampleRate := p.sampleRate
          chunkDurationMs := if p.chunkDurationMs > 0 then p.chunkDurationMs else 200
          isMono := p.isMono
          emitSilence := p.emitSilence
          gain := p.gain
          audioClient := true
          captureClient := true
          mixFormat := some fmt
          resampleRatio :=
            (if p.sampleRate > 0 then p.sampleRate else (fmt.nSamplesPerSec : ℚ)) /
              (fmt.nSamplesPerSec : ℚ)
          samplesPerChunk :=
            (⌊((if p.chunkDurationMs > 0 then p.chunkDurationMs else 200) / 1000) *
              (if p.sampleRate > 0 then p.sampleRate else (fmt.nSamplesPerSec : ℚ))⌋).toNat
          running := true },
       (if s.hasMetadataCallback then
          [Output.metadata
            (if p.sampleRate > 0 then p.sampleRate else (fmt.nSamplesPerSec : ℚ))
            (if p.isMono then 1 else fmt.nChannels) 32 true "pcm_f32le"]
        else []) ++
       (if s.hasEventCallback then [Output.event 0 none] else [])) := by
  have hgs : ¬ env.micEnv.getServiceHr < 0 := not_lt.mpr hms.2.2.2.2.2
  have hst : ¬ env.startHr < 0 := not_lt.mpr hstart
  unfold startMicrophone
  simp only [hrun, Bool.false_eq_true, if_false]
  rw [initMicrophone_ok env.micEnv _ _ hms, hf,
    startTail_ok env.startHr _ hgs hst _ fmt rfl]
  simp [setMicParams]

/-- A session requesting 48 kHz on a 44.1 kHz mono native format, used
as the concrete input of the resampling witness. -/
def resampleSession : CaptureState :=
  { newCapture true true true with mixFormat := some ⟨44100, 1⟩, targetSampleRate := 48000 }

/-- Witness for C6 at ratio 160/147 (48000/44100) on the two-sample
input [1, 0]. -/
theorem c6_resample_linear_witness :
    (0 : ℚ) < 160 / 147 ∧
    resampleSession.mixFormat = some ⟨44100, 1⟩ ∧
    0 < (⟨44100, 1⟩ : MixFormat).nSamplesPerSec ∧
    0 < resampleSession.targetSampleRate ∧
    (((finalizeInit resampleSession).2.1.resampleRatio = 1 ↔
        resampleSession.targetSampleRate = ((⟨44100, 1⟩ : MixFormat).nSamplesPerSec : ℚ)) ∧
     (∀ (s2 : CaptureState) (d : List ℚ) (n : ℕ), s2.resampleRatio = 1 →
        processAudioData s2 d n = processAudioDataNoResample s2 d n) ∧
     (resampleAudio (160 / 147) [1, 0]).length
        = (⌊(([1, 0] : List ℚ).length : ℚ) * (160 / 147)⌋).toNat ∧
     |((resampleAudio (160 / 147) [1, 0]).length : ℚ) -
        (([1, 0] : List ℚ).length : ℚ) * (160 / 147)| < 1 ∧
     (∀ i, i < (resampleAudio (160 / 147) [1, 0]).length →
        (resampleAudio (160 / 147) [1, 0]).getD i 0
          = resampleSpecValue (160 / 147) [1, 0] i) ∧
     (∀ i, i < (resampleAudio (160 / 147) [1, 0]).length →
        (⌊(i : ℚ) / (160 / 147)⌋).toNat + 1 < ([1, 0] : List ℚ).length →
        min (([1, 0] : List ℚ).getD (⌊(i : ℚ) / (160 / 147)⌋).toNat 0)
            (([1, 0] : List ℚ).getD ((⌊(i : ℚ) / (160 / 147)⌋).toNat + 1) 0)
          ≤ (resampleAudio (160 / 147) [1, 0]).getD i 0 ∧
        (resampleAudio (160 / 147) [1, 0]).getD i 0
          ≤ max (([1, 0] : List ℚ).getD (⌊(i : ℚ) / (160 / 147)⌋).toNat 0)
              (([1, 0] : List ℚ).getD ((⌊(i : ℚ) / (160 / 147)⌋).toNat + 1) 0))) :=
  ⟨by norm_num, rfl, by decide, by norm_num [resampleSession, newCapture],
    c6_resample_linear (160 / 147) [1, 0] resampleSession ⟨44100, 1⟩
      (by norm_num) rfl (by decide) (by norm_num [resampleSession, newCapture])⟩

/-- C10: starting either source with a non-positive requested sample
rate succeeds, reports the native mix-format rate through the metadata
callback, sets the resample ratio to 1, and applies no resampling pass
to any subsequent frame batch of the session. -/
theorem c10_nonpositive_rate (envS : SystemStartEnv) (p : SystemParams)
    (envM : MicStartEnv) (pm : MicParams) (s : CaptureState) (fmt : MixFormat)
    (hrun : s.running = false) (hmc : s.hasMetadataCallback = true)
    (hf1 : envS.procEnv.deviceFormat = fmt) (hf2 : envS.sysEnv.deviceFormat = fmt)
    (hf3 : envM.micEnv.deviceFormat = fmt)
    (hps : procEnvOk envS.procEnv) (hss : sysEnvOk envS.sysEnv) (hst1 : 0 ≤ envS.startHr)
    (hms : micEnvOk envM.micEnv) (hst2 : 0 ≤ envM.startHr)
    (hsr : 0 < fmt.nSamplesPerSec) (hp : p.sampleRate ≤ 0) (hpm : pm.sampleRate ≤ 0) :
    ((startSystemAudio envS p s).1 = 0 ∧
     Output.metadata (fmt.nSamplesPerSec : ℚ) (if p.isMono then 1 else fmt.nChannels)
         32 true "pcm_f32le" ∈ (startSystemAudio envS p s).2.2 ∧
     (startSystemAudio envS p s).2.1.resampleRatio = 1 ∧
     (∀ (d : List ℚ) (n : ℕ), processAudioData (startSystemAudio envS p s).2.1 d n
         = processAudioDataNoResample (startSystemAudio envS p s).2.1 d n)) ∧
    ((startMicrophone envM pm s).1 = 0 ∧
     Output.metadata (fmt.nSamplesPerSec : ℚ) (if pm.isMono then 1 else fmt.nChannels)
         32 true "pcm_f32le" ∈ (startMicrophone envM pm s).2.2 ∧
     (startMicrophone envM pm s).2.1.resampleRatio = 1 ∧
     (∀ (d : List ℚ) (n : ℕ), processAudioData (startMicrophone envM pm s).2.1 d n
         = processAudioDataNoResample (startMicrophone envM pm s).2.1 d n)) := by
  have hne : ((fmt.nSamplesPerSec : ℕ) : ℚ) ≠ 0 := Nat.cast_ne_zero.mpr hsr.ne'
  have hnp : ¬ p.sampleRate > 0 := not_lt.mpr hp
  have hnpm : ¬ pm.sampleRate > 0 := not_lt.mpr hpm
  rw [startSystemAudio_ok envS p s fmt hrun hf1 hf2 hps hss hst1,
    startMicrophone_ok envM pm s fmt hrun hf3 hms hst2]
  constructor
  · refine ⟨rfl, ?_, ?_, ?_⟩
    · simp [hmc, hnp]
    · simp [hnp, div_self hne]
    · intro d n
      exact processAudioData_ratio_one _ d n (by simp [hnp, div_self hne])
  · refine ⟨rfl, ?_, ?_, ?_⟩
    · simp [hmc, hnpm]
    · simp [hnpm, div_self hne]
    · intro d n
      exact processAudioData_ratio_one _ d n (by simp [hnpm, div_self hne])

/-- The native format and fully succeeding environments used by the
concrete witnesses for C10 and C3. -/
def nativeFmt441 : MixFormat := ⟨44100, 2⟩

/-- Fully succeeding system-start environment on `nativeFmt441`. -/
def okStartEnv441 : SystemStartEnv := ⟨okProcEnv nativeFmt441, okSysEnv nativeFmt441, 0⟩

/-- Fully succeeding microphone-start environment on `nativeFmt441`. -/
def okMicStartEnv441 : MicStartEnv := ⟨okMicEnv nativeFmt441, 0⟩

/-- System parameters requesting rate 0 (non-positive). -/
def zeroRateSysParams : SystemParams := ⟨0, 200, false, true, true, [], 0, [], 0⟩

/-- Microphone parameters requesting rate -1 (non-positive). -/
def zeroRateMicParams : MicParams := ⟨-1, 200, true, true, none, 1⟩

/-- Witness for C10 at rate 0 (system) and rate -1 (microphone) on a
44.1 kHz stereo native format. -/
theorem c10_nonpositive_rate_witness :
    (newCapture true true true).running = false ∧
    (newCapture true true true).hasMetadataCallback = true ∧
    okStartEnv441.procEnv.deviceFormat = nativeFmt441 ∧
    okStartEnv441.sysEnv.deviceFormat = nativeFmt441 ∧
    okMicStartEnv441.micEnv.deviceFormat = nativeFmt441 ∧
    procEnvOk okStartEnv441.procEnv ∧ sysEnvOk okStartEnv441.sysEnv ∧
    (0 : Int) ≤ okStartEnv441.startHr ∧
    micEnvOk okMicStartEnv441.micEnv ∧ (0 : Int) ≤ okMicStartEnv441.startHr ∧
    0 < nativeFmt441.nSamplesPerSec ∧
    zeroRateSysParams.sampleRate ≤ 0 ∧ zeroRateMicParams.sampleRate ≤ 0 ∧
    (((startSystemAudio okStartEnv441 zeroRateSysParams (newCapture true true true)).1 = 0 ∧
      Output.metadata (nativeFmt441.nSamplesPerSec : ℚ)
          (if zeroRateSysParams.isMono then 1 else nativeFmt441.nChannels) 32 true "pcm_f32le"
        ∈ (startSystemAudio okStartEnv441 zeroRateSysParams (newCapture true true true)).2.2 ∧
      (startSystemAudio okStartEnv441 zeroRateSysParams
          (newCapture true true true)).2.1.resampleRatio = 1 ∧
      (∀ (d : List ℚ) (n : ℕ),
        processAudioData
            (startSystemAudio okStartEnv441 zeroRateSysParams
              (newCapture true true true)).2.1 d n
          = processAudioDataNoResample
              (startSystemAudio okStartEnv441 zeroRateSysParams
                (newCapture true true true)).2.1 d n)) ∧
     ((startMicrophone okMicStartEnv441 zeroRateMicParams (newCapture true true true)).1 = 0 ∧
      Output.metadata (nativeFmt441.nSamplesPerSec : ℚ)
          (if zeroRateMicParams.isMono then 1 else nativeFmt441.nChannels) 32 true "pcm_f32le"
        ∈ (startMicrophone okMicStartEnv441 zeroRateMicParams (newCapture true true true)).2.2 ∧
      (startMicrophone okMicStartEnv441 zeroRateMicParams
          (newCapture true true true)).2.1.resampleRatio = 1 ∧
      (∀ (d : List ℚ) (n : ℕ),
        processAudioData
            (startMicrophone okMicStartEnv441 zeroRateMicParams
              (newCapture true true true)).2.1 d n
          = processAudioDataNoResample
              (startMicrophone okMicStartEnv441 zeroRateMicParams
                (newCapture true true true)).2.1 d n))) :=
  ⟨rfl, rfl, rfl, rfl, rfl, by decide, by decide, by decide, by decide, by decide,
    by decide, by norm_num [zeroRateSysParams], by norm_num [zeroRateMicParams],
    c10_nonpositive_rate okStartEnv441 zeroRateSysParams okMicStartEnv441 zeroRateMicParams
      (newCapture true true true) nativeFmt441 rfl rfl rfl rfl rfl
      (by decide) (by decide) (by decide) (by decide) (by decide) (by decide)
      (by norm_num [zeroRateSysParams]) (by norm_num [zeroRateMicParams])⟩

/-- System parameters with a 7 ms chunk at 44.1 kHz: the exact product
(7/1000)*44100 = 308.7 separates truncation (308) from rounding (309). -/
def ms7Params : SystemParams := ⟨44100, 7, false, true, true, [], 0, [], 0⟩

/-- Counterexample to C3 as stated: a successful `StartSystemAudio`
with chunkDurationMs = 7 and rate 44100 stores samplesPerChunk = 308,
while round((7/1000)*44100) = 309 — the code truncates, it does not
round to the nearest integer. -/
theorem c3_round_counterexample :
    (startSystemAudio okStartEnv441 ms7Params (newCapture true true true)).1 = 0 ∧
    (startSystemAudio okStartEnv441 ms7Params
        (newCapture true true true)).2.1.samplesPerChunk = 308 ∧
    round (((7 : ℚ) / 1000) * 44100) = 309 ∧
    (308 : ℕ) ≠ 309 := by
  have h := startSystemAudio_ok okStartEnv441 ms7Params (newCapture true true true)
    nativeFmt441 rfl rfl rfl (by decide) (by decide) (by decide)
  refine ⟨?_, ?_, by norm_num [round_eq], by decide⟩
  · rw [h]
  · rw [h]
    norm_num [ms7Params, nativeFmt441]
    rfl

/-- The native 48 kHz stereo format and its succeeding environment. -/
def nativeFmt48k : MixFormat := ⟨48000, 2⟩

/-- Fully succeeding system-start environment on `nativeFmt48k`. -/
def okStartEnv48k : SystemStartEnv := ⟨okProcEnv nativeFmt48k, okSysEnv nativeFmt48k, 0⟩

/-- System parameters: 200 ms chunks, 48 kHz, mono. -/
def chunk200Params48k : SystemParams := ⟨48000, 200, false, true, true, [], 0, [], 0⟩

/-- C3 (amended): for every successful Start, `samplesPerChunk` is the
truncation (floor) of `(chunkDurationMs/1000) * outputSampleRate` — not
the rounding to nearest; in particular for chunkDurationMs = 200,
outputSampleRate = 48000 and mono output the chunk holds exactly 9600
samples, i.e. 38400 bytes of 4-byte float samples. -/
theorem c3_samples_per_chunk_trunc (envS : SystemStartEnv) (p : SystemParams)
    (envM : MicStartEnv) (pm : MicParams) (s : CaptureState) (fmt : MixFormat)
    (hrun : s.running = false)
    (hf1 : envS.procEnv.deviceFormat = fmt) (hf2 : envS.sysEnv.deviceFormat = fmt)
    (hf3 : envM.micEnv.deviceFormat = fmt)
    (hps : procEnvOk envS.procEnv) (hss : sysEnvOk envS.sysEnv) (hst1 : 0 ≤ envS.startHr)
    (hms : micEnvOk envM.micEnv) (hst2 : 0 ≤ envM.startHr) :
    ((startSystemAudio envS p s).1 = 0 ∧
     (startSystemAudio envS p s).2.1.samplesPerChunk =
       (⌊((if p.chunkDurationMs > 0 then p.chunkDurationMs else 200) / 1000) *
          (if p.sampleRate > 0 then p.sampleRate else (fmt.nSamplesPerSec : ℚ))⌋).toNat) ∧
    ((startMicrophone envM pm s).1 = 0 ∧
     (startMicrophone envM pm s).2.1.samplesPerChunk =
       (⌊((if pm.chunkDurationMs > 0 then pm.chunkDurationMs else 200) / 1000) *
          (if pm.sampleRate > 0 then pm.sampleRate else (fmt.nSamplesPerSec : ℚ))⌋).toNat) ∧
    samplesNeeded (startSystemAudio okStartEnv48k chunk200Params48k
        (newCapture true true true)).2.1 = 9600 ∧
    (9600 * 4 = 38400) := by
  rw [startSystemAudio_ok envS p s fmt hrun hf1 hf2 hps hss hst1,
    startMicrophone_ok envM pm s fmt hrun hf3 hms hst2,
    startSystemAudio_ok okStartEnv48k chunk200Params48k (newCapture true true true)
      nativeFmt48k rfl rfl rfl (by decide) (by decide) (by decide)]
  refine ⟨⟨rfl, rfl⟩, ⟨rfl, rfl⟩, ?_, by norm_num⟩
  norm_num [samplesNeeded, outputChannels, chunk200Params48k, nativeFmt48k]
  rfl

/-- Witness for C3 (amended) at the 44.1 kHz environments with the
7 ms and zero-rate parameter sets. -/
theorem c3_samples_per_chunk_trunc_witness :
    (newCapture true true true).running = false ∧
    procEnvOk okStartEnv441.procEnv ∧ sysEnvOk okStartEnv441.sysEnv ∧
    micEnvOk okMicStartEnv441.micEnv ∧
    (((startSystemAudio okStartEnv441 ms7Params (newCapture true true true)).1 = 0 ∧
      (startSystemAudio okStartEnv441 ms7Params
          (newCapture true true true)).2.1.samplesPerChunk =
        (⌊((if ms7Params.chunkDurationMs > 0 then ms7Params.chunkDurationMs else 200) / 1000) *
           (if ms7Params.sampleRate > 0 then ms7Params.sampleRate
             else (nativeFmt441.nSamplesPerSec : ℚ))⌋).toNat) ∧
     ((startMicrophone okMicStartEnv441 zeroRateMicParams (newCapture true true true)).1 = 0 ∧
      (startMicrophone okMicStartEnv441 zeroRateMicParams
          (newCapture true true true)).2.1.samplesPerChunk =
        (⌊((if zeroRateMicParams.chunkDurationMs > 0
              then zeroRateMicParams.chunkDurationMs else 200) / 1000) *
           (if zeroRateMicParams.sampleRate > 0 then zeroRateMicParams.sampleRate
             else (nativeFmt441.nSamplesPerSec : ℚ))⌋).toNat) ∧
     samplesNeeded (startSystemAudio okStartEnv48k chunk200Params48k
         (newCapture true true true)).2.1 = 9600 ∧
     (9600 * 4 = 38400)) :=
  ⟨rfl, by decide, by decide, by decide,
    c3_samples_per_chunk_trunc okStartEnv441 ms7Params okMicStartEnv441 zeroRateMicParams
      (newCapture true true true) nativeFmt441 rfl rfl rfl rfl
      (by decide) (by decide) (by decide) (by decide) (by decide)⟩

theorem startTail_outcomes (startHr : Int) (res : Int × CaptureState) (msg : String)
    (hrrun : res.2.running = false) (hrev : res.2.hasEventCallback = true)
    (hmix : ¬ FAILED res.1 = true → res.2.mixFormat.isSome = true) :
    (startTail startHr res msg).1 = 0 ∨
    (((startTail startHr res msg).1 = -3 ∨ (startTail startHr res msg).1 = -5) ∧
     (∃ m, Output.event 2 (some m) ∈ (startTail startHr res msg).2.2) ∧
     (startTail startHr res msg).2.1.running = false ∧
     (startTail startHr res msg).2.1.audioClient = res.2.audioClient ∧
     (startTail startHr res msg).2.1.captureClient = res.2.captureClient ∧
     (startTail startHr res msg).2.1.mixFormat = res.2.mixFormat) := by
  by_cases hf : FAILED res.1 = true
  · right
    unfold startTail
    dsimp only
    rw [if_pos hf]
    exact ⟨Or.inl rfl, ⟨msg, by simp [hrev]⟩, hrrun, rfl, rfl, rfl⟩
  · obtain ⟨fmt, hfmt⟩ := Option.isSome_iff_exists.mp (hmix hf)
    by_cases hs : FAILED startHr = true
    · right
      unfold startTail
      dsimp only
      rw [if_neg hf, finalizeInit_some res.2 fmt hfmt]
      dsimp only
      rw [if_neg (by simp [FAILED]), if_pos hs]
      exact ⟨Or.inr rfl, ⟨"Failed to start audio client", by simp [hrev]⟩, hrrun, rfl, rfl, rfl⟩
    · left
      unfold startTail
      dsimp only
      rw [if_neg hf, finalizeInit_some res.2 fmt hfmt]
      dsimp only
      rw [if_neg (by simp [FAILED]), if_neg hs]

theorem startTail_glue (startHr : Int) (msg : String) (s s0 : CaptureState)
    (res : Int × CaptureState)
    (h0run : s0.running = false) (h0ev : s0.hasEventCallback = true)
    (h0a : s0.audioClient = s.audioClient) (h0c : s0.captureClient = s.captureClient)
    (h0m : s0.mixFormat = s.mixFormat)
    (hret : retainsAndPreserves s0 res.2)
    (hcase : FAILED res.1 = true ∨
      (FAILED res.1 = false ∧ res.2.mixFormat.isSome = true)) :
    (startTail startHr res msg).1 = 0 ∨
    (((startTail startHr res msg).1 = -3 ∨ (startTail startHr res msg).1 = -5) ∧
     (∃ m, Output.event 2 (some m) ∈ (startTail startHr res msg).2.2) ∧
     (startTail startHr res msg).2.1.running = false ∧
     (s.audioClient = true → (startTail startHr res msg).2.1.audioClient = true) ∧
     (s.captureClient = true → (startTail startHr res msg).2.1.captureClient = true) ∧
     (s.mixFormat.isSome = true → (startTail startHr res msg).2.1.mixFormat.isSome = true)) := by
  obtain ⟨ra, rc, rm, rrun, rev, -⟩ := hret
  have hrrun : res.2.running = false := by rw [rrun, h0run]
  have hrev : res.2.hasEventCallback = true := by rw [rev, h0ev]
  have hmix : ¬ FAILED res.1 = true → res.2.mixFormat.isSome = true := by
    intro h
    rcases hcase with hc | ⟨-, hm⟩
    · exact absurd hc h
    · exact hm
  rcases startTail_outcomes startHr res msg hrrun hrev hmix with
    h0 | ⟨hcode, hm, hrn, ha, hc2, hmx⟩
  · exact Or.inl h0
  · refine Or.inr ⟨hcode, hm, hrn, ?_, ?_, ?_⟩
    · intro hsa
      rw [ha]
      exact ra (h0a.trans hsa)
    · intro hsc
      rw [hc2]
      exact rc (h0c.trans hsc)
    · intro hsm
      rw [hmx]
      refine rm ?_
      rw [h0m]
      exact hsm

theorem startSystemAudio_outcomes (env : SystemStartEnv) (p : SystemParams)
    (s : CaptureState) (hrun : s.running = false) (hev : s.hasEventCallback = true) :
    (startSystemAudio env p s).1 = 0 ∨
    (((startSystemAudio env p s).1 = -3 ∨ (startSystemAudio env p s).1 = -5) ∧
     (∃ m, Output.event 2 (some m) ∈ (startSystemAudio env p s).2.2) ∧
     (startSystemAudio env p s).2.1.running = false ∧
     (s.audioClient = true → (startSystemAudio env p s).2.1.audioClient = true) ∧
     (s.captureClient = true → (startSystemAudio env p s).2.1.captureClient = true) ∧
     (s.mixFormat.isSome = true →
       (startSystemAudio env p s).2.1.mixFormat.isSome = true)) := by
  have h0run : (setSysParams p s).running = false := by simp [setSysParams, hrun]
  have h0ev : (setSysParams p s).hasEventCallback = true := by simp [setSysParams, hev]
  unfold startSystemAudio
  simp only [hrun, Bool.false_eq_true, if_false]
  by_cases h1 : p.includeCount > 0 ∧ p.includeProcesses ≠ []
  · rw [if_pos h1]
    refine startTail_glue _ _ s (setSysParams p s) _ h0run h0ev rfl rfl rfl
      (initProcessLoopback_retains _ _ _ _) ?_
    rcases initProcessLoopback_cases env.procEnv (p.includeProcesses.headD 0) true
        (setSysParams p s) with h | ⟨h, hstate⟩
    · exact Or.inl h
    · exact Or.inr ⟨h, by rw [hstate]; rfl⟩
  · rw [if_neg h1]
    by_cases h2 : p.excludeCount > 0 ∧ p.excludeProcesses ≠ []
    · rw [if_pos h2]
      refine startTail_glue _ _ s (setSysParams p s) _ h0run h0ev rfl rfl rfl
        (initProcessLoopback_retains _ _ _ _) ?_
      rcases initProcessLoopback_cases env.procEnv (p.excludeProcesses.headD 0) false
          (setSysParams p s) with h | ⟨h, hstate⟩
      · exact Or.inl h
      · exact Or.inr ⟨h, by rw [hstate]; rfl⟩
    · rw [if_neg h2]
      refine startTail_glue _ _ s (setSysParams p s) _ h0run h0ev rfl rfl rfl
        (initSystemLoopback_retains _ _) ?_
      rcases initSystemLoopback_cases env.sysEnv (setSysParams p s) with h | ⟨h, hstate⟩
      · exact Or.inl h
      · exact Or.inr ⟨h, by rw [hstate]; rfl⟩

theorem startMicrophone_outcomes (env : MicStartEnv) (p : MicParams)
    (s : CaptureState) (hrun : s.running = false) (hev : s.hasEventCallback = true) :
    (startMicrophone env p s).1 = 0 ∨
    (((startMicrophone env p s).1 = -3 ∨ (startMicrophone env p s).1 = -5) ∧
     (∃ m, Output.event 2 (some m) ∈ (startMicrophone env p s).2.2) ∧
     (startMicrophone env p s).2.1.running = false ∧
     (s.audioClient = true → (startMicrophone env p s).2.1.audioClient = true) ∧
     (s.captureClient = true → (startMicrophone env p s).2.1.captureClient = true) ∧
     (s.mixFormat.isSome = true →
       (startMicrophone env p s).2.1.mixFormat.isSome = true)) := by
  have h0run : (setMicParams p s).running = false := by simp [setMicParams, hrun]
  have h0ev : (setMicParams p s).hasEventCallback = true := by simp [setMicParams, hev]
  unfold startMicrophone
  simp only [hrun, Bool.false_eq_true, if_false]
  refine startTail_glue _ _ s (setMicParams p s) _ h0run h0ev rfl rfl rfl
    (initMicrophone_retains _ _ _) ?_
  rcases initMicrophone_cases env.micEnv p.deviceId (setMicParams p s) with h | ⟨h, hstate⟩
  · exact Or.inl h
  · exact Or.inr ⟨h, by rw [hstate]; rfl⟩

/-- C1 (amended): when a `StartSystemAudio` or `StartMicrophone` call on
an idle session fails, an `Error` (type 2) lifecycle event is emitted
and the session is left not running (`IsRunning()` = false), but the
natively acquired resources are NOT released before the call returns:
any resource held when the call began is still held at return (the
failed call never releases anything; partially acquired clients and the
mix format are retained until the object is destroyed). -/
theorem c1_failed_start_rollback (envS : SystemStartEnv) (p : SystemParams)
    (envM : MicStartEnv) (pm : MicParams) (s : CaptureState)
    (hrun : s.running = false) (hev : s.hasEventCallback = true) :
    ((startSystemAudio envS p s).1 ≠ 0 →
      ((startSystemAudio envS p s).1 = -3 ∨ (startSystemAudio envS p s).1 = -4 ∨
        (startSystemAudio envS p s).1 = -5) ∧
      (∃ m, Output.event 2 (some m) ∈ (startSystemAudio envS p s).2.2) ∧
      (startSystemAudio envS p s).2.1.running = false ∧
      (s.audioClient = true → (startSystemAudio envS p s).2.1.audioClient = true) ∧
      (s.captureClient = true → (startSystemAudio envS p s).2.1.captureClient = true) ∧
      (s.mixFormat.isSome = true →
        (startSystemAudio envS p s).2.1.mixFormat.isSome = true)) ∧
    ((startMicrophone envM pm s).1 ≠ 0 →
      ((startMicrophone envM pm s).1 = -3 ∨ (startMicrophone envM pm s).1 = -4 ∨
        (startMicrophone envM pm s).1 = -5) ∧
      (∃ m, Output.event 2 (some m) ∈ (startMicrophone envM pm s).2.2) ∧
      (startMicrophone envM pm s).2.1.running = false ∧
      (s.audioClient = true → (startMicrophone envM pm s).2.1.audioClient = true) ∧
      (s.captureClient = true → (startMicrophone envM pm s).2.1.captureClient = true) ∧
      (s.mixFormat.isSome = true →
        (startMicrophone envM pm s).2.1.mixFormat.isSome = true)) := by
  constructor
  · intro hne
    rcases startSystemAudio_outcomes envS p s hrun hev with h0 | ⟨hcode, rest⟩
    · exact absurd h0 hne
    · exact ⟨hcode.imp id Or.inr, rest⟩
  · intro hne
    rcases startMicrophone_outcomes envM pm s hrun hev with h0 | ⟨hcode, rest⟩
    · exact absurd h0 hne
    · exact ⟨hcode.imp id Or.inr, rest⟩

/-- A system-start environment whose `GetMixFormat` call fails after
`Activate` has already acquired the audio client. -/
def c1FailEnv : SystemStartEnv :=
  ⟨okProcEnv nativeFmt48k, ⟨0, 0, 0, -1, nativeFmt48k, 0, 0⟩, 0⟩

theorem c1FailEval :
    startSystemAudio c1FailEnv zeroRateSysParams (newCapture true true true) =
      (-3,
       { setSysParams zeroRateSysParams (newCapture true true true) with audioClient := true },
       [Output.event 2 (some "Failed to initialize audio capture")]) := by
  unfold startSystemAudio startTail initSystemLoopback
  norm_num [c1FailEnv, zeroRateSysParams, setSysParams, newCapture, FAILED]

/-- A microphone-start environment whose very first native call fails,
so negotiation acquires nothing. -/
def micFailEnv : MicStartEnv := ⟨⟨-1, 0, 0, 0, nativeFmt48k, 0, 0⟩, 0⟩

/-- Microphone parameters with gain 2, stereo output, 200 ms chunks. -/
def gain2MicParams : MicParams := ⟨48000, 200, false, true, none, 2⟩

theorem micFailEval :
    startMicrophone micFailEnv gain2MicParams (newCapture true true true) =
      (-3, setMicParams gain2MicParams (newCapture true true true),
       [Output.event 2 (some "Failed to initialize microphone capture")]) := by
  unfold startMicrophone startTail initMicrophone
  norm_num [micFailEnv, gain2MicParams, setMicParams, newCapture, FAILED]

/-- Counterexample to C1 as stated: a `StartSystemAudio` call that fails
(-3) when `GetMixFormat` errors emits the `Error` event and leaves the
session not running, but the audio client acquired by the preceding
`Activate` call is still held when the call returns — the partially
acquired native resource is NOT released. -/
theorem c1_resource_leak_counterexample :
    (startSystemAudio c1FailEnv zeroRateSysParams (newCapture true true true)).1 = -3 ∧
    (startSystemAudio c1FailEnv zeroRateSysParams (newCapture true true true)).2.2 =
      [Output.event 2 (some "Failed to initialize audio capture")] ∧
    (startSystemAudio c1FailEnv zeroRateSysParams
        (newCapture true true true)).2.1.running = false ∧
    (startSystemAudio c1FailEnv zeroRateSysParams
        (newCapture true true true)).2.1.audioClient = true ∧
    ¬ ((startSystemAudio c1FailEnv zeroRateSysParams
        (newCapture true true true)).2.1.audioClient = false) := by
  rw [c1FailEval]
  exact ⟨rfl, rfl, rfl, rfl, by simp⟩

/-- Witness for C1 (amended): the two failing start calls above, with
the failure hypotheses discharged. -/
theorem c1_failed_start_rollback_witness :
    (newCapture true true true).running = false ∧
    (newCapture true true true).hasEventCallback = true ∧
    (startSystemAudio c1FailEnv zeroRateSysParams (newCapture true true true)).1 ≠ 0 ∧
    (((startSystemAudio c1FailEnv zeroRateSysParams (newCapture true true true)).1 = -3 ∨
      (startSystemAudio c1FailEnv zeroRateSysParams (newCapture true true true)).1 = -4 ∨
      (startSystemAudio c1FailEnv zeroRateSysParams (newCapture true true true)).1 = -5) ∧
     (∃ m, Output.event 2 (some m) ∈
        (startSystemAudio c1FailEnv zeroRateSysParams (newCapture true true true)).2.2) ∧
     (startSystemAudio c1FailEnv zeroRateSysParams
        (newCapture true true true)).2.1.running = false ∧
     ((newCapture true true true).audioClient = true →
       (startSystemAudio c1FailEnv zeroRateSysParams
          (newCapture true true true)).2.1.audioClient = true) ∧
     ((newCapture true true true).captureClient = true →
       (startSystemAudio c1FailEnv zeroRateSysParams
          (newCapture true true true)).2.1.captureClient = true) ∧
     ((newCapture true true true).mixFormat.isSome = true →
       (startSystemAudio c1FailEnv zeroRateSysParams
          (newCapture true true true)).2.1.mixFormat.isSome = true)) ∧
    (startMicrophone micFailEnv gain2MicParams (newCapture true true true)).1 ≠ 0 ∧
    (((startMicrophone micFailEnv gain2MicParams (newCapture true true true)).1 = -3 ∨
      (startMicrophone micFailEnv gain2MicParams (newCapture true true true)).1 = -4 ∨
      (startMicrophone micFailEnv gain2MicParams (newCapture true true true)).1 = -5) ∧
     (∃ m, Output.event 2 (some m) ∈
        (startMicrophone micFailEnv gain2MicParams (newCapture true true true)).2.2) ∧
     (startMicrophone micFailEnv gain2MicParams
        (newCapture true true true)).2.1.running = false ∧
     ((newCapture true true true).audioClient = true →
       (startMicrophone micFailEnv gain2MicParams
          (newCapture true true true)).2.1.audioClient = true) ∧
     ((newCapture true true true).captureClient = true →
       (startMicrophone micFailEnv gain2MicParams
          (newCapture true true true)).2.1.captureClient = true) ∧
     ((newCapture true true true).mixFormat.isSome = true →
       (startMicrophone micFailEnv gain2MicParams
          (newCapture true true true)).2.1.mixFormat.isSome = true)) :=
  ⟨rfl, rfl, by rw [c1FailEval]; decide,
    (c1_failed_start_rollback c1FailEnv zeroRateSysParams micFailEnv gain2MicParams
      (newCapture true true true) rfl rfl).1 (by rw [c1FailEval]; decide),
    by rw [micFailEval]; decide,
    (c1_failed_start_rollback c1FailEnv zeroRateSysParams micFailEnv gain2MicParams
      (newCapture true true true) rfl rfl).2 (by rw [micFailEval]; decide)⟩

/-- System parameters: 0.05 ms chunks (samplesPerChunk = 2), 48 kHz,
stereo output — chosen so that one two-frame batch fills a whole chunk. -/
def stereo48SysParams : SystemParams := ⟨48000, 1/20, false, false, true, [], 0, [], 0⟩

/-- The session state after the failed microphone start with gain 2. -/
def staleGainMicState : CaptureState :=
  (startMicrophone micFailEnv gain2MicParams (newCapture true true true)).2.1

/-- The session state after the subsequent successful system-audio start. -/
def staleGainSysState : CaptureState :=
  (startSystemAudio okStartEnv48k stereo48SysParams staleGainMicState).2.1

theorem staleGainMicStateEval :
    staleGainMicState = setMicParams gain2MicParams (newCapture true true true) := by
  unfold staleGainMicState
  rw [micFailEval]

/-- C2 is violated by the code: the gain stage of `ProcessAudioData` is
keyed on the stored `gain_` alone (`gain_ != 1.0`), which
`StartSystemAudio` never resets, so after a `StartMicrophone` call with
gain 2 (even a failing one) a system-audio session multiplies every
captured sample by the stale gain — here the stereo frames (1,1),(1,1)
are delivered to the data callback as the chunk [2,2,2,2] instead of
[1,1,1,1], contradicting the comment in the code itself,
"Apply gain if capturing microphone" and the specification. -/
theorem c2_stale_gain_on_system_path :
    (startMicrophone micFailEnv gain2MicParams (newCapture true true true)).1 = -3 ∧
    staleGainMicState.running = false ∧
    staleGainMicState.gain = 2 ∧
    (startSystemAudio okStartEnv48k stereo48SysParams staleGainMicState).1 = 0 ∧
    staleGainSysState.gain = 2 ∧
    (processAudioData staleGainSysState [1, 1, 1, 1] 2).2 = [[2, 2, 2, 2]] ∧
    ([[2, 2, 2, 2]] : List (List ℚ)) ≠ [[1, 1, 1, 1]] := by
  have hmic := staleGainMicStateEval
  have hrun : staleGainMicState.running = false := by rw [hmic]; rfl
  have hok := startSystemAudio_ok okStartEnv48k stereo48SysParams staleGainMicState
    nativeFmt48k hrun rfl rfl (by decide) (by decide) (by decide)
  refine ⟨by rw [micFailEval], hrun, by rw [hmic]; rfl, by rw [hok], ?_, ?_, by norm_num⟩
  · unfold staleGainSysState
    rw [hok]
    simp [hmic, setMicParams, gain2MicParams]
  · unfold staleGainSysState
    rw [hok]
    have ht2 : Int.toNat 2 = 2 := rfl
    norm_num [hmic, setMicParams, gain2MicParams, stereo48SysParams, nativeFmt48k,
      newCapture, setSysParams, processAudioData, applyGain, emitChunks, emitChunksGo,
      ht2]

end Wasapi
